import Mathlib

/-!
# lv2lint: the port validation engine (`lv2lint_port.c`)

A shallow embedding of the nine port rules and of `test_port`, followed by the
properties of the specification that concern them.

Conventions of the embedding.

* A C `float` is an `F32`: NaN, the two infinities, or a finite value carried as
  its exact rational value.  Signed zeros are identified (no operation used by
  the rules tells them apart).
* `NULL` pointers are `none`.  A `LilvNodes*` is an `Option (List String)` (the
  rules only put URI nodes in such collections and iterate them in order).
* A rule `static const ret_t *_test_x(app_t *app)` is a function
  `app_t → Option ret_t × app_t`: the returned pointer (`none` for `NULL`) and
  the `app` after the call.
* `fprintf(stdout, ...)` appends one string to the output, which is a
  `List String` (every format string of the file ends in a newline, so one
  element is one line).
-/

namespace Lv2lint

/-! ## C `float` -/

/-- A C `float`: NaN, minus infinity, plus infinity, or a finite value. -/
inductive F32 where
  | nan
  | ninf
  | pinf
  | fin (q : ℚ)
  deriving DecidableEq

namespace F32

/-- The constant `0.f`. -/
def zero : F32 := fin 0

/-- The constant `1.f`. -/
def one : F32 := fin 1

/-- C `a <= b` on floats (false as soon as an operand is NaN). -/
def le : F32 → F32 → Bool
  | nan, _ => false
  | _, nan => false
  | ninf, _ => true
  | _, pinf => true
  | fin a, fin b => decide (a ≤ b)
  | pinf, _ => false
  | fin _, ninf => false

/-- C `a > b` on floats (false as soon as an operand is NaN). -/
def gt : F32 → F32 → Bool
  | nan, _ => false
  | _, nan => false
  | ninf, _ => false
  | _, pinf => false
  | fin a, fin b => decide (b < a)
  | pinf, _ => true
  | fin _, ninf => true

/-- C `a == b` on floats (false as soon as an operand is NaN). -/
def eq : F32 → F32 → Bool
  | fin a, fin b => decide (a = b)
  | pinf, pinf => true
  | ninf, ninf => true
  | _, _ => false

/-- Round a rational to the nearest integer, ties to the even one
(the default rounding direction used by `rintf`). -/
def roundHalfEven (q : ℚ) : Int :=
  let f := ⌊q⌋
  let r := q - f
  if r < 1 / 2 then f
  else if 1 / 2 < r then f + 1
  else if f % 2 = 0 then f
  else f + 1

/-- C `rintf`: infinities and NaN are returned unchanged. -/
def rintf : F32 → F32
  | fin q => fin (roundHalfEven q)
  | x => x

/-- The number of binary digits of `a` (`fuel` bounds the recursion; `a` itself
is always enough). -/
def bitLength : Nat → Nat → Nat
  | 0, _ => 0
  | fuel + 1, a => if a = 0 then 0 else bitLength fuel (a / 2) + 1

/-- The conversion of a C `int` to `float` (the assignment
`*val = lilv_node_as_int(node)`): round to nearest, ties to even, with a
significand of 24 bits; a magnitude that rounds to `2^128` or more gives an
infinity (never the case for a 32 bit `int`). -/
def ofInt (n : Int) : F32 :=
  let a := n.natAbs
  let e := bitLength a a - 24
  let q := a / 2 ^ e
  let r := a % 2 ^ e
  let q1 := if 2 ^ e < 2 * r ∨ (2 * r = 2 ^ e ∧ q % 2 = 1) then q + 1 else q
  let m := q1 * 2 ^ e
  if 2 ^ 128 ≤ m then (if n < 0 then ninf else pinf)
  else fin (if n < 0 then -(m : ℚ) else (m : ℚ))

/-- The value is NaN. -/
def isNaN : F32 → Bool
  | nan => true
  | _ => false

end F32

/-! ## The metadata store (lilv) as seen by the rules -/

/-- A `LilvNode`: a typed value of the metadata store. -/
inductive LilvNode where
  | uri (s : String)
  | blank (s : String)
  | string (s : String)
  | int (i : Int)
  | float (f : F32)
  | bool (b : Bool)
  deriving DecidableEq

def lilv_node_is_uri : LilvNode → Bool
  | .uri _ => true
  | _ => false

def lilv_node_is_string : LilvNode → Bool
  | .string _ => true
  | _ => false

def lilv_node_is_int : LilvNode → Bool
  | .int _ => true
  | _ => false

def lilv_node_is_float : LilvNode → Bool
  | .float _ => true
  | _ => false

def lilv_node_is_bool : LilvNode → Bool
  | .bool _ => true
  | _ => false

/-- The function `lilv_node_as_int`: the integer of an Int node, `0` otherwise. -/
def lilv_node_as_int : LilvNode → Int
  | .int i => i
  | _ => 0

/-- The function `lilv_node_as_float`: the value of a Float node, the converted
integer of an Int node, NaN otherwise. -/
def lilv_node_as_float : LilvNode → F32
  | .float f => f
  | .int i => F32.ofInt i
  | _ => F32.nan

/-- The function `lilv_node_as_bool`: the value of a Bool node, `false` otherwise. -/
def lilv_node_as_bool : LilvNode → Bool
  | .bool b => b
  | _ => false

/-- What `lilv_world_find_nodes` answers for the two vocabulary queries of the
rules.  `none` is the `NULL` lilv returns when a query has no match. -/
structure World where
  /-- Subjects of `rdfs:subClassOf lv2:Port`. -/
  port_classes : Option (List String)
  /-- Subjects of `rdf:type lv2:PortProperty`. -/
  port_properties : Option (List String)

/-- What the store holds for the port `app->port` of `app->plugin`. -/
structure Port where
  /-- The number `lilv_port_get_index` (a `uint32_t`). -/
  index : Nat
  /-- The name `lilv_port_get_symbol`. -/
  symbol : String
  /-- The collection `lilv_port_get_classes`, in iteration order. -/
  classes : Option (List String)
  /-- The collection `lilv_port_get_properties`, in iteration order. -/
  properties : Option (List String)
  /-- Value of `lilv_port_get` for `lv2:default`. -/
  default : Option LilvNode
  /-- Value of `lilv_port_get` for `lv2:minimum`. -/
  minimum : Option LilvNode
  /-- Value of `lilv_port_get` for `lv2:maximum`. -/
  maximum : Option LilvNode
  /-- Value of `lilv_port_get` for `rdfs:comment`. -/
  comment : Option LilvNode
  /-- Value of `lilv_port_get` for `pg:group`. -/
  group : Option LilvNode

/-- The function `lilv_nodes_contains`; a `NULL` collection contains nothing. -/
def lilv_nodes_contains (nodes : Option (List String)) (node : String) : Bool :=
  (nodes.getD []).contains node

/-- The function `lilv_port_is_a`: the class is among the port classes. -/
def lilv_port_is_a (port : Port) (cls : String) : Bool :=
  lilv_nodes_contains port.classes cls

/-- The function `lilv_port_has_property`: the property is among the port
properties. -/
def lilv_port_has_property (port : Port) (prop : String) : Bool :=
  lilv_nodes_contains port.properties prop

/-! ## URIs -/

def LV2_CORE__Port : String := "http://lv2plug.in/ns/lv2core#Port"
def LV2_CORE__portProperty : String := "http://lv2plug.in/ns/lv2core#portProperty"
def LV2_CORE__default : String := "http://lv2plug.in/ns/lv2core#default"
def LV2_CORE__minimum : String := "http://lv2plug.in/ns/lv2core#minimum"
def LV2_CORE__maximum : String := "http://lv2plug.in/ns/lv2core#maximum"
def LV2_CORE__integer : String := "http://lv2plug.in/ns/lv2core#integer"
def LV2_CORE__toggled : String := "http://lv2plug.in/ns/lv2core#toggled"
def LV2_CORE__ControlPort : String := "http://lv2plug.in/ns/lv2core#ControlPort"
def LV2_CORE__CVPort : String := "http://lv2plug.in/ns/lv2core#CVPort"
def LV2_CORE__InputPort : String := "http://lv2plug.in/ns/lv2core#InputPort"
def LV2_EVENT__EventPort : String := "http://lv2plug.in/ns/ext/event#EventPort"
def LV2_PORT_GROUPS__group : String := "http://lv2plug.in/ns/ext/port-groups#group"
def LILV_NS_RDFS : String := "http://www.w3.org/2000/01/rdf-schema#"

/-! ## `lv2lint.h`: severities, findings, the application state -/

/-- Modelled from the spec: `lv2lint.h` (the type `lint_t` and its `LINT_*`
bits) is not among the sources.  The spec gives the severities
`{NOTE, WARN, FAIL}`; each is one bit of a mask. -/
inductive lint_t where
  | LINT_NOTE
  | LINT_WARN
  | LINT_FAIL
  deriving DecidableEq

export lint_t (LINT_NOTE LINT_WARN LINT_FAIL)

/-- Modelled from the spec: the masks `app->show` (display mask) and
`app->mask` (failure mask) are "bitwise-combinable sets over
`{NOTE, WARN, FAIL}`": one flag for each severity bit. -/
structure Mask where
  note : Bool
  warn : Bool
  fail : Bool
  deriving DecidableEq

/-- The bit of the severity is set in the mask. -/
def Mask.has (m : Mask) : lint_t → Bool
  | LINT_NOTE => m.note
  | LINT_WARN => m.warn
  | LINT_FAIL => m.fail

/-- The C expression `lint & m` for a severity bit `lint`: the bit itself when it
is set in `m` (`some lint`), zero otherwise (`none`). -/
def lint_and (lint : lint_t) (m : Mask) : Option lint_t :=
  if m.has lint then some lint else none

/-- The struct `ret_t` of a Finding: `{lint, msg, url}` as its initialisers
in the source give them. -/
structure ret_t where
  lint : lint_t
  msg : String
  url : String
  deriving DecidableEq

/-- The struct `app_t`, restricted to what the port rules use.  `urn` is the slot
`*app->urn` the rules write a discovered URI to; `min`, `dflt`, `max` are
`app->min.f32`, `app->dflt.f32`, `app->max.f32`. -/
structure app_t where
  world : World
  port : Port
  /-- The display mask `app->show`. -/
  show_ : Mask
  /-- The failure mask `app->mask`. -/
  mask : Mask
  min : F32
  dflt : F32
  max : F32
  urn : Option String

/-- The nodes `app->uris.*`. -/
def uris_lv2_integer : String := LV2_CORE__integer
def uris_lv2_toggled : String := LV2_CORE__toggled
def uris_lv2_ControlPort : String := LV2_CORE__ControlPort
def uris_lv2_CVPort : String := LV2_CORE__CVPort
def uris_lv2_InputPort : String := LV2_CORE__InputPort
def uris_event_EventPort : String := LV2_EVENT__EventPort

/-! ## Rule: Class -/

/-- The index enum of `ret_class`. -/
inductive class_idx where
  | CLASS_NOT_VALID

def ret_class : class_idx → ret_t
  | .CLASS_NOT_VALID => ⟨LINT_FAIL, "lv2:Port class <%s> not valid", LV2_CORE__Port⟩

/-- The loop `LILV_FOREACH(nodes, itr, supported)` of `_test_class` and
`_test_properties`: the first node of `supported` that `valid` does not
contain (the loop breaks there), `none` when the loop runs to its end. -/
def foreach_not_contained (valid : List String) : List String → Option String
  | [] => none
  | node :: rest =>
    if !(lilv_nodes_contains (some valid) node) then some node
    else foreach_not_contained valid rest

def _test_class (app : app_t) : Option ret_t × app_t :=
  match app.world.port_classes with
  | some cls =>
    match app.port.classes with
    | some supported =>
      match foreach_not_contained cls supported with
      | some node => (some (ret_class .CLASS_NOT_VALID), { app with urn := some node })
      | none => (none, app)
    | none => (none, app)
  | none => (none, app)

/-! ## Rule: PortProperties -/

/-- The index enum of `ret_properties`. -/
inductive properties_idx where
  | PROPERTIES_NOT_VALID

def ret_properties : properties_idx → ret_t
  | .PROPERTIES_NOT_VALID =>
    ⟨LINT_FAIL, "lv2:portProperty <%s> not valid", LV2_CORE__portProperty⟩

def _test_properties (app : app_t) : Option ret_t × app_t :=
  match app.world.port_properties with
  | some properties =>
    match app.port.properties with
    | some supported =>
      match foreach_not_contained properties supported with
      | some node =>
        (some (ret_properties .PROPERTIES_NOT_VALID), { app with urn := some node })
      | none => (none, app)
    | none => (none, app)
  | none => (none, app)

/-! ## Rules: Default, Minimum, Maximum -/

/-- The index enum of the tables handed to `_test_num`. -/
inductive num_idx where
  | NUM_NOT_FOUND
  | NUM_NOT_AN_INT
  | NUM_NOT_A_FLOAT
  | NUM_NOT_A_BOOL
  deriving DecidableEq

export num_idx (NUM_NOT_FOUND NUM_NOT_AN_INT NUM_NOT_A_FLOAT NUM_NOT_A_BOOL)

/-- The shared coercion `_test_num`.  `val` is the value of `*val` on entry; the
result is the returned pointer and the value of `*val` on exit. -/
def _test_num (node : Option LilvNode) (rets : num_idx → ret_t)
    (is_integer is_toggled : Bool) (val : F32) : Option ret_t × F32 :=
  match node with
  | some node =>
    let val1 : F32 :=
      if lilv_node_is_int node then F32.ofInt (lilv_node_as_int node)
      else if lilv_node_is_float node then lilv_node_as_float node
      else if lilv_node_is_bool node then
        (if lilv_node_as_bool node then F32.one else F32.zero)
      else val
    let ret : Option ret_t :=
      if is_integer then
        if lilv_node_is_int node
            || (lilv_node_is_float node
              && F32.eq (F32.rintf (lilv_node_as_float node)) (lilv_node_as_float node)) then
          none
        else
          some (rets NUM_NOT_AN_INT)
      else if is_toggled then
        if lilv_node_is_bool node
            || (lilv_node_is_int node
              && (lilv_node_as_int node == 0 || lilv_node_as_int node == 1))
            || (lilv_node_is_float node
              && (F32.eq (lilv_node_as_float node) F32.zero
                || F32.eq (lilv_node_as_float node) F32.one)) then
          none
        else
          some (rets NUM_NOT_A_BOOL)
      else if lilv_node_is_float node || lilv_node_is_int node then
        none
      else
        some (rets NUM_NOT_A_FLOAT)
    (ret, val1)
  | none => (some (rets NUM_NOT_FOUND), val)

def ret_default : num_idx → ret_t
  | NUM_NOT_FOUND => ⟨LINT_WARN, "lv2:default not found", LV2_CORE__Port⟩
  | NUM_NOT_AN_INT => ⟨LINT_WARN, "lv2:default not an integer", LV2_CORE__default⟩
  | NUM_NOT_A_FLOAT => ⟨LINT_WARN, "lv2:default not a float", LV2_CORE__default⟩
  | NUM_NOT_A_BOOL => ⟨LINT_WARN, "lv2:default not a bool", LV2_CORE__default⟩

def _test_default (app : app_t) : Option ret_t × app_t :=
  let app : app_t := { app with dflt := F32.zero }
  let is_integer := lilv_port_has_property app.port uris_lv2_integer
  let is_toggled := lilv_port_has_property app.port uris_lv2_toggled
  if (lilv_port_is_a app.port uris_lv2_ControlPort
        || lilv_port_is_a app.port uris_lv2_CVPort)
      && lilv_port_is_a app.port uris_lv2_InputPort then
    let default_node := app.port.default
    let r := _test_num default_node ret_default is_integer is_toggled app.dflt
    (r.1, { app with dflt := r.2 })
  else
    (none, app)

def ret_minimum : num_idx → ret_t
  | NUM_NOT_FOUND => ⟨LINT_WARN, "lv2:minimum not found", LV2_CORE__Port⟩
  | NUM_NOT_AN_INT => ⟨LINT_WARN, "lv2:minimum not an integer", LV2_CORE__minimum⟩
  | NUM_NOT_A_FLOAT => ⟨LINT_WARN, "lv2:minimum not a float", LV2_CORE__minimum⟩
  | NUM_NOT_A_BOOL => ⟨LINT_WARN, "lv2:minimum not a bool", LV2_CORE__minimum⟩

def _test_minimum (app : app_t) : Option ret_t × app_t :=
  let app : app_t := { app with min := F32.zero }
  let is_integer := lilv_port_has_property app.port uris_lv2_integer
  let is_toggled := lilv_port_has_property app.port uris_lv2_toggled
  if (lilv_port_is_a app.port uris_lv2_ControlPort
        || lilv_port_is_a app.port uris_lv2_CVPort)
      && lilv_port_is_a app.port uris_lv2_InputPort
      && !is_toggled then
    let minimum_node := app.port.minimum
    let r := _test_num minimum_node ret_minimum is_integer is_toggled app.min
    (r.1, { app with min := r.2 })
  else
    (none, app)

def ret_maximum : num_idx → ret_t
  | NUM_NOT_FOUND => ⟨LINT_WARN, "lv2:maximum not found", LV2_CORE__Port⟩
  | NUM_NOT_AN_INT => ⟨LINT_WARN, "lv2:maximum not an integer", LV2_CORE__maximum⟩
  | NUM_NOT_A_FLOAT => ⟨LINT_WARN, "lv2:maximum not a float", LV2_CORE__maximum⟩
  | NUM_NOT_A_BOOL => ⟨LINT_WARN, "lv2:maximum not a bool", LV2_CORE__maximum⟩

def _test_maximum (app : app_t) : Option ret_t × app_t :=
  let app : app_t := { app with max := F32.one }
  let is_integer := lilv_port_has_property app.port uris_lv2_integer
  let is_toggled := lilv_port_has_property app.port uris_lv2_toggled
  if (lilv_port_is_a app.port uris_lv2_ControlPort
        || lilv_port_is_a app.port uris_lv2_CVPort)
      && lilv_port_is_a app.port uris_lv2_InputPort
      && !is_toggled then
    let maximum_node := app.port.maximum
    let r := _test_num maximum_node ret_maximum is_integer is_toggled app.max
    (r.1, { app with max := r.2 })
  else
    (none, app)

/-! ## Rule: Range -/

def ret_range : ret_t :=
  ⟨LINT_FAIL, "range invalid (min <= default <= max)", LV2_CORE__Port⟩

def _test_range (app : app_t) : Option ret_t × app_t :=
  if lilv_port_is_a app.port uris_lv2_ControlPort
      || lilv_port_is_a app.port uris_lv2_CVPort then
    if !(F32.le app.min app.dflt && F32.le app.dflt app.max) then
      (some ret_range, app)
    else
      (none, app)
  else
    (none, app)

/-! ## Rule: Event Port -/

/-- The index enum of `ret_event_port`. -/
inductive event_port_idx where
  | EVENT_PORT_DEPRECATED

def ret_event_port : event_port_idx → ret_t
  | .EVENT_PORT_DEPRECATED =>
    ⟨LINT_FAIL, "lv2:EventPort is deprecated, use atom:AtomPort instead",
      LV2_EVENT__EventPort⟩

def _test_event_port (app : app_t) : Option ret_t × app_t :=
  if lilv_port_is_a app.port uris_event_EventPort then
    (some (ret_event_port .EVENT_PORT_DEPRECATED), app)
  else
    (none, app)

/-! ## Rule: Comment -/

/-- The index enum of `ret_comment`. -/
inductive comment_idx where
  | COMMENT_NOT_FOUND
  | COMMENT_NOT_A_STRING

def ret_comment : comment_idx → ret_t
  | .COMMENT_NOT_FOUND => ⟨LINT_NOTE, "rdfs:comment not found", LILV_NS_RDFS ++ "comment"⟩
  | .COMMENT_NOT_A_STRING =>
    ⟨LINT_FAIL, "rdfs:comment not a string", LILV_NS_RDFS ++ "comment"⟩

def _test_comment (app : app_t) : Option ret_t × app_t :=
  match app.port.comment with
  | some comment =>
    if !(lilv_node_is_string comment) then
      (some (ret_comment .COMMENT_NOT_A_STRING), app)
    else
      (none, app)
  | none => (some (ret_comment .COMMENT_NOT_FOUND), app)

/-! ## Rule: Group -/

/-- The index enum of `ret_group`. -/
inductive group_idx where
  | GROUP_NOT_FOUND
  | GROUP_NOT_A_URI

def ret_group : group_idx → ret_t
  | .GROUP_NOT_FOUND => ⟨LINT_NOTE, "pg:group not found", LV2_PORT_GROUPS__group⟩
  | .GROUP_NOT_A_URI => ⟨LINT_FAIL, "pg:group not a URI", LV2_PORT_GROUPS__group⟩

def _test_group (app : app_t) : Option ret_t × app_t :=
  match app.port.group with
  | some group =>
    if !(lilv_node_is_uri group) then
      (some (ret_group .GROUP_NOT_A_URI), app)
    else
      (none, app)
  | none => (some (ret_group .GROUP_NOT_FOUND), app)

/-! ## The registry and `test_port` -/

/-- The struct `test_t`: the fixed-width identifier and the callback of a rule. -/
structure test_t where
  id : String
  cb : app_t → Option ret_t × app_t

def tests : List test_t := [
  ⟨"Class           ", _test_class⟩,
  ⟨"PortProperties  ", _test_properties⟩,
  ⟨"Default         ", _test_default⟩,
  ⟨"Minimum         ", _test_minimum⟩,
  ⟨"Maximum         ", _test_maximum⟩,
  ⟨"Range           ", _test_range⟩,
  ⟨"Event Port      ", _test_event_port⟩,
  ⟨"Comment         ", _test_comment⟩,
  ⟨"Group           ", _test_group⟩]

def tests_n : Nat := tests.length

/-- The struct `res_t`: what one rule returned and the URI it left in its slot. -/
structure res_t where
  ret : Option ret_t
  urn : Option String
  deriving DecidableEq

/-- The indices of a row of the table `colors` that `test_port` uses. -/
inductive ansi_color where
  | ANSI_COLOR_BOLD
  | ANSI_COLOR_RED
  | ANSI_COLOR_YELLOW
  | ANSI_COLOR_CYAN
  | ANSI_COLOR_RESET
  deriving DecidableEq

export ansi_color (ANSI_COLOR_BOLD ANSI_COLOR_RED ANSI_COLOR_YELLOW ANSI_COLOR_CYAN
  ANSI_COLOR_RESET)

/-- The first loop of `test_port`, from rule `i` on: each rule gets a fresh slot
(`res->urn = NULL; app->urn = &res->urn`), is run, and `msg` is raised when its
Finding has a severity of the display mask.  Returns `rets`, `msg` and `app`. -/
def test_port_run : List test_t → app_t → Bool → List res_t × Bool × app_t
  | [], app, msg => ([], msg, app)
  | test :: rest, app, msg =>
    let r := test.cb { app with urn := none }
    let res : res_t := ⟨r.1, r.2.urn⟩
    let msg1 : Bool :=
      match res.ret with
      | some ret => if (lint_and ret.lint r.2.show_).isSome then true else msg
      | none => msg
    let t := test_port_run rest r.2 msg1
    (res :: t.1, t.2.1, t.2.2)

/-- The call `strstr(msg, "%s") != NULL`. -/
def strstr_pct_s : List Char → Bool
  | [] => false
  | '%' :: 's' :: _ => true
  | _ :: rest => strstr_pct_s rest

/-- What `printf` writes for a format without any argument left: `%%` is a
percent sign, other characters are copied. -/
def printf_rest : List Char → List Char
  | [] => []
  | '%' :: '%' :: rest => '%' :: printf_rest rest
  | c :: rest => c :: printf_rest rest

/-- The text `asprintf(&repl, fmt, urn)` produces for a format whose conversions
are `%s` (consuming `urn`) and `%%`; allocation is taken to succeed. -/
def asprintf_s : List Char → List Char → List Char
  | [], _ => []
  | '%' :: 's' :: rest, urn => urn ++ printf_rest rest
  | '%' :: '%' :: rest, urn => '%' :: asprintf_s rest urn
  | c :: rest, urn => c :: asprintf_s rest urn

/-- The conversion `%d` applied to the `uint32_t` port index. -/
def fmt_d (i : Nat) : String :=
  let u := i % 2 ^ 32
  if u < 2 ^ 31 then toString u else "-" ++ toString (2 ^ 32 - u)

/-- The block of `test_port` that computes `repl` from `res->urn`, and the
expression `repl ? repl : ret->msg` the three `fprintf` calls print. -/
def message_text (ret : ret_t) (urn : Option String) : String :=
  let repl : Option String :=
    match urn with
    | some urn =>
      if strstr_pct_s ret.msg.data then
        some (String.mk (asprintf_s ret.msg.data urn.data))
      else none
    | none => none
  repl.getD ret.msg

/-- The second loop of `test_port` (the one under `if(msg)`), from rule `i` on:
the lines written and the value of `flag`. -/
def test_port_report (colors : ansi_color → String) (app : app_t) :
    List (test_t × res_t) → Bool → List String × Bool
  | [], flag => ([], flag)
  | (test, res) :: rest, flag =>
    match res.ret with
    | some ret =>
      let text : String := message_text ret res.urn
      let line : List String :=
        match lint_and ret.lint app.show_ with
        | some LINT_FAIL =>
          ["    [" ++ colors ANSI_COLOR_RED ++ "FAIL" ++ colors ANSI_COLOR_RESET ++ "]  "
            ++ test.id ++ "=> " ++ text ++ " <" ++ ret.url ++ ">\n"]
        | some LINT_WARN =>
          ["    [" ++ colors ANSI_COLOR_YELLOW ++ "WARN" ++ colors ANSI_COLOR_RESET ++ "]  "
            ++ test.id ++ "=> " ++ text ++ " <" ++ ret.url ++ ">\n"]
        | some LINT_NOTE =>
          ["    [" ++ colors ANSI_COLOR_CYAN ++ "NOTE" ++ colors ANSI_COLOR_RESET ++ "]  "
            ++ test.id ++ "=> " ++ text ++ " <" ++ ret.url ++ ">\n"]
        | none => []
      let flag1 : Bool :=
        if flag then (if (lint_and ret.lint app.mask).isSome then false else true)
        else flag
      let t := test_port_report colors app rest flag1
      (line ++ t.1, t.2)
    | none => test_port_report colors app rest flag

/-- The header line `"  %s{%d : %s}%s\n"`. -/
def header_line (colors : ansi_color → String) (port : Port) : String :=
  "  " ++ colors ANSI_COLOR_BOLD ++ "\x7b" ++ fmt_d port.index ++ " : " ++ port.symbol
    ++ "\x7d" ++ colors ANSI_COLOR_RESET ++ "\n"

/-- What a call of `test_port` leaves: the returned `flag`, the lines written to
`stdout`, the array `rets`, and `app` after the call. -/
structure port_outcome where
  flag : Bool
  out : List String
  rets : List res_t
  app : app_t

/-- The function `test_port`.  `atty` is the value of `isatty(1)` and `colors` the
table of that name (declared outside this file). -/
def test_port (atty : Bool) (colors : Bool → ansi_color → String) (app : app_t) :
    port_outcome :=
  let r := test_port_run tests app false
  let rets := r.1
  let msg := r.2.1
  let app1 := r.2.2
  if msg then
    let t := test_port_report (colors atty) app1 (tests.zip rets) true
    ⟨t.2, header_line (colors atty) app1.port :: t.1, rets, app1⟩
  else
    ⟨true, [], rets, app1⟩

/-! ## Vocabulary of the specification -/

/-- The port is a ControlPort or a CVPort. -/
def is_control_or_cv (port : Port) : Bool :=
  lilv_port_is_a port LV2_CORE__ControlPort || lilv_port_is_a port LV2_CORE__CVPort

/-- The port has the kind the coercion rules apply to: (ControlPort or CVPort)
and InputPort. -/
def coercion_kind (port : Port) : Bool :=
  is_control_or_cv port && lilv_port_is_a port LV2_CORE__InputPort

/-- The property "integer" is set on the port. -/
def is_integer (port : Port) : Bool := lilv_port_has_property port LV2_CORE__integer

/-- The property "toggled" is set on the port. -/
def is_toggled (port : Port) : Bool := lilv_port_has_property port LV2_CORE__toggled

/-- The numeric value of a literal: the converted integer of an Int, the value
of a Float, `1.0` / `0.0` for a Bool `true` / `false`; no value for other tags. -/
def num_value : LilvNode → Option F32
  | .int i => some (F32.ofInt i)
  | .float f => some f
  | .bool true => some F32.one
  | .bool false => some F32.zero
  | _ => none

/-- The Context field `field` holds the coerced numeric value of the literal
`node`: the integer value for an Int, the float value for a Float, `1.0` / `0.0`
for the Bool `true` / `false`. -/
def holds_value_of (field : F32) (node : LilvNode) : Prop :=
  (∃ i, node = .int i ∧ field = F32.ofInt i)
    ∨ (∃ f, node = .float f ∧ field = f)
    ∨ (node = .bool true ∧ field = F32.one)
    ∨ (node = .bool false ∧ field = F32.zero)

/-- The float is finite and its value is an integer. -/
def F32.is_exact_integer (f : F32) : Prop := ∃ n : Int, f = F32.fin n

/-- The float is one of the two infinities. -/
def F32.is_infinite (f : F32) : Prop := f = F32.pinf ∨ f = F32.ninf

/-- The Findings among the results of the rules, in registry order. -/
def findings (rets : List res_t) : List ret_t :=
  rets.filterMap (fun res => res.ret)

/-- The Finding of a result (if any) has a severity of the mask. -/
def res_in_mask (m : Mask) (res : res_t) : Bool :=
  match res.ret with
  | some ret => m.has ret.lint
  | none => false

/-- The label of a severity. -/
def lint_label : lint_t → String
  | LINT_FAIL => "FAIL"
  | LINT_WARN => "WARN"
  | LINT_NOTE => "NOTE"

/-- The display style of a severity. -/
def lint_color : lint_t → ansi_color
  | LINT_FAIL => ANSI_COLOR_RED
  | LINT_WARN => ANSI_COLOR_YELLOW
  | LINT_NOTE => ANSI_COLOR_CYAN

/-- The line of a visible Finding: `[LABEL]  <identifier>=> <message> <reference>`. -/
def finding_line (colors : ansi_color → String) (id : String) (ret : ret_t)
    (urn : Option String) : String :=
  "    [" ++ colors (lint_color ret.lint) ++ lint_label ret.lint ++ colors ANSI_COLOR_RESET
    ++ "]  " ++ id ++ "=> " ++ message_text ret urn ++ " <" ++ ret.url ++ ">\n"

/-- The line of an entry of the results that holds a Finding (the empty string
for an entry without one). -/
def entry_line (colors : ansi_color → String) (p : test_t × res_t) : String :=
  match p.2.ret with
  | some ret => finding_line colors p.1.id ret p.2.urn
  | none => ""

/-- The lines of the visible Findings of a run, in registry order: one line for
each rule whose Finding has a severity of the display mask. -/
def visible_lines (colors : ansi_color → String) (m : Mask)
    (l : List (test_t × res_t)) : List String :=
  (l.filter (fun p => res_in_mask m p.2)).map (entry_line colors)

/-- The first class of `asserted` (in iteration order) that is not in `valid`. -/
def first_invalid (valid asserted : List String) : Option String :=
  asserted.find? (fun node => decide (node ∉ valid))

/-- The rule left the store, the port and the two masks of `app` as they were. -/
def same_config (a b : app_t) : Prop :=
  b.world = a.world ∧ b.port = a.port ∧ b.show_ = a.show_ ∧ b.mask = a.mask

/-! ## Example inputs -/

/-- A table `colors` without any escape sequence. -/
def no_colors : Bool → ansi_color → String := fun _ _ => ""

/-- A store that knows the usual port classes and port properties. -/
def ex_world : World :=
  ⟨some [LV2_CORE__InputPort, LV2_CORE__ControlPort, LV2_CORE__CVPort, LV2_EVENT__EventPort,
      "http://lv2plug.in/ns/lv2core#OutputPort"],
    some [LV2_CORE__integer, LV2_CORE__toggled]⟩

/-- A documented, grouped input port of the deprecated class EventPort. -/
def ex_event_port : Port :=
  { index := 2, symbol := "events",
    classes := some [LV2_CORE__InputPort, LV2_EVENT__EventPort],
    properties := none,
    default := none, minimum := none, maximum := none,
    comment := some (.string "Event input"),
    group := some (.uri "urn:example:group") }

/-- The port `ex_event_port` with every severity displayed and FAIL the only
failing severity. -/
def ex_app_shown_fail : app_t :=
  { world := ex_world, port := ex_event_port,
    show_ := ⟨true, true, true⟩, mask := ⟨false, false, true⟩,
    min := F32.zero, dflt := F32.zero, max := F32.one, urn := none }

/-- The port `ex_event_port` with NOTE and WARN displayed, FAIL hidden, and FAIL
the only failing severity. -/
def ex_app_hidden_fail : app_t :=
  { world := ex_world, port := ex_event_port,
    show_ := ⟨true, true, false⟩, mask := ⟨false, false, true⟩,
    min := F32.zero, dflt := F32.zero, max := F32.one, urn := none }

/-- A control input port from its properties and its three range literals. -/
def ex_control_input (properties : Option (List String))
    (dflt minimum maximum : Option LilvNode) : Port :=
  { index := 0, symbol := "gain",
    classes := some [LV2_CORE__InputPort, LV2_CORE__ControlPort],
    properties := properties,
    default := dflt, minimum := minimum, maximum := maximum,
    comment := some (.string "Gain"),
    group := none }

/-- The application state for a port, every severity displayed, FAIL failing,
and a Context left over from an earlier port. -/
def ex_app (port : Port) : app_t :=
  { world := ex_world, port := port,
    show_ := ⟨true, true, true⟩, mask := ⟨false, false, true⟩,
    min := F32.fin 7, dflt := F32.fin 8, max := F32.fin 9, urn := some "urn:left:over" }

/-- A toggled and integer control input port whose default is the Bool `true`. -/
def ex_app_toggled_integer : app_t :=
  ex_app (ex_control_input (some [LV2_CORE__toggled, LV2_CORE__integer])
    (some (.bool true)) none none)

/-- A toggled control input port without any `lv2:default`. -/
def ex_app_toggled_no_default : app_t :=
  ex_app (ex_control_input (some [LV2_CORE__toggled]) none none none)

/-- A toggled control input port whose default is the Int `5`. -/
def ex_app_toggled_five : app_t :=
  ex_app (ex_control_input (some [LV2_CORE__toggled]) (some (.int 5)) none none)

/-- A control output port (ControlPort, not InputPort) with range literals. -/
def ex_app_control_output : app_t :=
  ex_app
    { index := 1, symbol := "meter",
      classes := some ["http://lv2plug.in/ns/lv2core#OutputPort", LV2_CORE__ControlPort],
      properties := none,
      default := some (.float (F32.fin 3)), minimum := some (.float (F32.fin 5)),
      maximum := some (.float (F32.fin 4)),
      comment := none, group := none }

/-- A control input port with the Context triple `(NaN, 0.0, 1.0)`. -/
def ex_app_nan_minimum : app_t :=
  { ex_app (ex_control_input none none none none) with
    min := F32.nan, dflt := F32.zero, max := F32.one }

/-- A control input port with the Context triple `(2.0, 1.0, 5.0)`. -/
def ex_app_range_bad : app_t :=
  { ex_app (ex_control_input none none none none) with
    min := F32.fin 2, dflt := F32.fin 1, max := F32.fin 5 }

/-- A control input port with the Context triple `(0.0, 0.5, 1.0)`. -/
def ex_app_range_good : app_t :=
  { ex_app (ex_control_input none none none none) with
    min := F32.fin 0, dflt := F32.fin (1 / 2), max := F32.fin 1 }

/-- A port asserting the classes `asserted`, in a store whose query for the
valid Port subclasses answers `valid`. -/
def ex_app_classes (valid asserted : Option (List String)) : app_t :=
  { world := ⟨valid, none⟩,
    port :=
      { index := 0, symbol := "in", classes := asserted, properties := none,
        default := none, minimum := none, maximum := none, comment := none, group := none },
    show_ := ⟨true, true, true⟩, mask := ⟨false, false, true⟩,
    min := F32.zero, dflt := F32.zero, max := F32.one, urn := none }

/-- A plain control input port with default `1`, minimum `0.0` and maximum `2`. -/
def ex_app_plain_range : app_t :=
  ex_app (ex_control_input none (some (.int 1)) (some (.float (F32.fin 0))) (some (.int 2)))

/-! ## Vocabulary of the specification: the registry and the rendering -/

/-- The call of a rule by the first loop of `test_port`: the rule runs on `app`
with a fresh slot. -/
def call_rule (cb : app_t → Option ret_t × app_t) (app : app_t) : Option ret_t × app_t :=
  cb { app with urn := none }

/-- The `app` left by the rules of `ts` called one after the other, each one
once, whatever they return. -/
def state_after : List test_t → app_t → app_t
  | [], app => app
  | t :: ts, app => state_after ts (call_rule t.cb app).2

/-- The entry of `rets` for a rule called on `app`: its Finding and the URI it
left in its slot. -/
def result_of (t : test_t) (app : app_t) : res_t :=
  ⟨(call_rule t.cb app).1, (call_rule t.cb app).2.urn⟩

/-- The `app` with the Context fields a previous port left over: the three
values and the slot. -/
def with_context (app : app_t) (m d x : F32) (u : Option String) : app_t :=
  { app with min := m, dflt := d, max := x, urn := u }

/-- The template with its placeholder `%s` (the first one) replaced by the
substitution; a template without placeholder is returned as it is. -/
def replace_placeholder : List Char → List Char → List Char
  | [], _ => []
  | '%' :: 's' :: rest, subst => subst ++ rest
  | c :: rest, subst => c :: replace_placeholder rest subst

/-- The message of a Finding as the specification renders it: the template with
its placeholder replaced when a substitution is present, the template itself
when there is none. -/
def rendered_message (template : String) (subst : Option String) : String :=
  match subst with
  | some s => String.mk (replace_placeholder template.data s.data)
  | none => template

/-! ## Example inputs for the later properties -/

/-- A port asserting the port properties `asserted`, in a store whose query for
the recognized port properties answers `valid`. -/
def ex_app_properties (valid asserted : Option (List String)) : app_t :=
  { world := ⟨none, valid⟩,
    port :=
      { index := 0, symbol := "in", classes := none, properties := asserted,
        default := none, minimum := none, maximum := none, comment := none, group := none },
    show_ := ⟨true, true, true⟩, mask := ⟨false, false, true⟩,
    min := F32.zero, dflt := F32.zero, max := F32.one, urn := none }

/-- A plain control input port whose default is the Int `16777217` (`2^24 + 1`). -/
def ex_app_large_default : app_t :=
  ex_app (ex_control_input none (some (.int 16777217)) none none)

/-! # Properties

Every declaration from here on is a lemma or a theorem. -/

/-! ## Frame lemmas -/

theorem same_config_refl (a : app_t) : same_config a a := ⟨rfl, rfl, rfl, rfl⟩

theorem same_config_trans {a b c : app_t} (h1 : same_config a b) (h2 : same_config b c) :
    same_config a c := by
  obtain ⟨h11, h12, h13, h14⟩ := h1
  obtain ⟨h21, h22, h23, h24⟩ := h2
  exact ⟨h21.trans h11, h22.trans h12, h23.trans h13, h24.trans h14⟩

theorem test_class_frame (app : app_t) : same_config app (_test_class app).2 := by
  unfold _test_class same_config
  split <;> try split <;> try split
  all_goals simp

theorem test_properties_frame (app : app_t) : same_config app (_test_properties app).2 := by
  unfold _test_properties same_config
  split <;> try split <;> try split
  all_goals simp

theorem test_default_frame (app : app_t) : same_config app (_test_default app).2 := by
  unfold _test_default same_config
  simp only []
  split <;> simp

theorem test_minimum_frame (app : app_t) : same_config app (_test_minimum app).2 := by
  unfold _test_minimum same_config
  simp only []
  split <;> simp

theorem test_maximum_frame (app : app_t) : same_config app (_test_maximum app).2 := by
  unfold _test_maximum same_config
  simp only []
  split <;> simp

theorem test_range_unchanged (app : app_t) : (_test_range app).2 = app := by
  unfold _test_range
  split <;> try split
  all_goals rfl

theorem test_event_port_unchanged (app : app_t) : (_test_event_port app).2 = app := by
  unfold _test_event_port
  split <;> rfl

theorem test_comment_unchanged (app : app_t) : (_test_comment app).2 = app := by
  unfold _test_comment
  split <;> try split
  all_goals rfl

theorem test_group_unchanged (app : app_t) : (_test_group app).2 = app := by
  unfold _test_group
  split <;> try split
  all_goals rfl

theorem tests_frame : ∀ t ∈ tests, ∀ a : app_t, same_config a (t.cb a).2 := by
  intro t ht a
  simp only [tests, List.mem_cons, List.mem_singleton, List.not_mem_nil, or_false] at ht
  rcases ht with h | h | h | h | h | h | h | h | h <;> subst h <;> simp only []
  · exact test_class_frame a
  · exact test_properties_frame a
  · exact test_default_frame a
  · exact test_minimum_frame a
  · exact test_maximum_frame a
  · rw [test_range_unchanged]; exact same_config_refl a
  · rw [test_event_port_unchanged]; exact same_config_refl a
  · rw [test_comment_unchanged]; exact same_config_refl a
  · rw [test_group_unchanged]; exact same_config_refl a


/-! ## The two loops of `test_port` -/

theorem lint_and_isSome (lint : lint_t) (m : Mask) :
    (lint_and lint m).isSome = m.has lint := by
  unfold lint_and
  cases m.has lint <;> simp

theorem res_in_mask_none (m : Mask) (res : res_t) (h : res.ret = none) :
    res_in_mask m res = false := by
  simp [res_in_mask, h]

theorem res_in_mask_some (m : Mask) (res : res_t) (ret : ret_t) (h : res.ret = some ret) :
    res_in_mask m res = m.has ret.lint := by
  simp [res_in_mask, h]

theorem test_port_run_spec (ts : List test_t)
    (hts : ∀ t ∈ ts, ∀ a : app_t, same_config a (t.cb a).2) (app : app_t) (msg : Bool) :
    (test_port_run ts app msg).1.length = ts.length
      ∧ (test_port_run ts app msg).2.1
          = (msg || (test_port_run ts app msg).1.any (res_in_mask app.show_))
      ∧ same_config app (test_port_run ts app msg).2.2 := by
  induction ts generalizing app msg with
  | nil => simp [test_port_run, same_config_refl]
  | cons t rest ih =>
    have hframe : same_config app (t.cb { app with urn := none }).2 := by
      have h := hts t (List.mem_cons_self _ _) { app with urn := none }
      exact ⟨h.1, h.2.1, h.2.2.1, h.2.2.2⟩
    have hrest : ∀ t1 ∈ rest, ∀ a : app_t, same_config a (t1.cb a).2 :=
      fun t1 h1 => hts t1 (List.mem_cons_of_mem _ h1)
    have key := ih hrest (t.cb { app with urn := none }).2
    rw [test_port_run]
    refine ⟨?_, ?_, same_config_trans hframe (key _).2.2⟩
    · simp only [List.length_cons, add_left_inj]
      exact (key _).1
    · rw [(key _).2.1, hframe.2.2.1]
      simp only [List.any_cons]
      cases h : (t.cb { app with urn := none }).1 with
      | none => rw [res_in_mask_none _ _ rfl]; simp
      | some ret =>
        rw [res_in_mask_some _ _ ret rfl]
        simp only [lint_and_isSome]
        cases app.show_.has ret.lint <;> cases msg <;> simp

theorem test_port_report_spec (colors : ansi_color → String) (app : app_t)
    (l : List (test_t × res_t)) (flag : Bool) :
    test_port_report colors app l flag
      = (visible_lines colors app.show_ l,
          flag && !(l.any (fun p => res_in_mask app.mask p.2))) := by
  induction l generalizing flag with
  | nil => simp [test_port_report, visible_lines]
  | cons p rest ih =>
    obtain ⟨test, res⟩ := p
    simp only [test_port_report, visible_lines, List.any_cons, List.filter_cons]
    cases h : res.ret with
    | none => simp [ih, res_in_mask_none _ _ h, visible_lines]
    | some ret =>
      simp only [ih, lint_and_isSome, res_in_mask_some _ _ ret h, visible_lines]
      have hentry : entry_line colors (test, res) = finding_line colors test.id ret res.urn := by
        simp [entry_line, h]
      have hline : (match lint_and ret.lint app.show_ with
          | some LINT_FAIL =>
            ["    [" ++ colors ANSI_COLOR_RED ++ "FAIL" ++ colors ANSI_COLOR_RESET ++ "]  "
              ++ test.id ++ "=> " ++ message_text ret res.urn ++ " <" ++ ret.url ++ ">\n"]
          | some LINT_WARN =>
            ["    [" ++ colors ANSI_COLOR_YELLOW ++ "WARN" ++ colors ANSI_COLOR_RESET ++ "]  "
              ++ test.id ++ "=> " ++ message_text ret res.urn ++ " <" ++ ret.url ++ ">\n"]
          | some LINT_NOTE =>
            ["    [" ++ colors ANSI_COLOR_CYAN ++ "NOTE" ++ colors ANSI_COLOR_RESET ++ "]  "
              ++ test.id ++ "=> " ++ message_text ret res.urn ++ " <" ++ ret.url ++ ">\n"]
          | none => [])
          = if app.show_.has ret.lint then [finding_line colors test.id ret res.urn] else [] := by
        unfold lint_and finding_line
        cases hs : app.show_.has ret.lint
        · simp
        · cases hl : ret.lint <;> simp [lint_color, lint_label]
      rw [hline]
      cases hs : app.show_.has ret.lint <;> cases flag <;> cases app.mask.has ret.lint <;>
        simp [hentry]

theorem any_zip_snd {α β : Type} (f : β → Bool) :
    ∀ (l1 : List α) (l2 : List β), l2.length = l1.length →
      (l1.zip l2).any (fun p => f p.2) = l2.any f
  | [], [], _ => rfl
  | [], _ :: _, h => by simp at h
  | _ :: _, [], h => by simp at h
  | a :: l1, b :: l2, h => by
    have ih := any_zip_snd f l1 l2 (by simpa using h)
    simp [List.zip_cons_cons, ih]

theorem any_res_in_mask (m : Mask) (rets : List res_t) :
    rets.any (res_in_mask m) = true ↔ ∃ f ∈ findings rets, m.has f.lint = true := by
  induction rets with
  | nil => simp [findings]
  | cons res rest ih =>
    cases h : res.ret with
    | none =>
      have : findings (res :: rest) = findings rest := by simp [findings, List.filterMap_cons, h]
      rw [this, ← ih]
      simp [res_in_mask, h]
    | some ret =>
      have : findings (res :: rest) = ret :: findings rest := by
        simp [findings, List.filterMap_cons, h]
      rw [this]
      simp only [List.any_cons, Bool.or_eq_true, List.mem_cons, exists_eq_or_imp, ih]
      simp [res_in_mask, h]

/-- The verdict, the output and the results of `test_port` in closed form. -/
theorem test_port_spec (atty : Bool) (colors : Bool → ansi_color → String) (app : app_t) :
    (test_port atty colors app).rets = (test_port_run tests app false).1
      ∧ (test_port atty colors app).rets.length = tests.length
      ∧ (test_port atty colors app).flag
          = (!((test_port atty colors app).rets.any (res_in_mask app.show_))
              || !((test_port atty colors app).rets.any (res_in_mask app.mask)))
      ∧ (test_port atty colors app).out
          = (if (test_port atty colors app).rets.any (res_in_mask app.show_) then
              header_line (colors atty) app.port
                :: visible_lines (colors atty) app.show_
                    (tests.zip (test_port atty colors app).rets)
            else []) := by
  obtain ⟨h1, h2, h3⟩ := test_port_run_spec tests tests_frame app false
  have hrets : (test_port atty colors app).rets = (test_port_run tests app false).1 := by
    unfold test_port
    simp only []
    split <;> rfl
  refine ⟨hrets, by rw [hrets, h1], ?_, ?_⟩
  · rw [hrets]
    unfold test_port
    simp only [test_port_report_spec, h2, Bool.false_or, h3.2.2.2,
      any_zip_snd _ tests _ h1]
    cases (test_port_run tests app false).1.any (res_in_mask app.show_) <;> simp
  · rw [hrets]
    unfold test_port
    simp only [test_port_report_spec, h2, Bool.false_or, h3.2.2.1, h3.2.1]
    cases (test_port_run tests app false).1.any (res_in_mask app.show_) <;> simp

/-! ## C1: the verdict -/

/-- C1, counterexample: the port `ex_event_port` has a FAIL Finding (from the
Event Port rule) and FAIL is in the failure mask, yet `test_port` returns
`true`, because no Finding has a severity of the display mask. -/
theorem C1_counterexample :
    (∃ f ∈ findings (test_port false no_colors ex_app_hidden_fail).rets,
        ex_app_hidden_fail.mask.has f.lint = true)
      ∧ (test_port false no_colors ex_app_hidden_fail).flag = true := by
  decide

/-- C1, as amended: `test_port` returns `false` if and only if some Finding has a
severity of the display mask and some Finding has a severity of the failure
mask.  With the failure mask `{FAIL}` it returns `true` for a port without any
FAIL Finding, and `false` for a port with a FAIL Finding when FAIL is
displayed. -/
theorem C1_verdict (atty : Bool) (colors : Bool → ansi_color → String) (app : app_t) :
    ((test_port atty colors app).flag = false ↔
        (∃ f ∈ findings (test_port atty colors app).rets, app.show_.has f.lint = true)
          ∧ (∃ f ∈ findings (test_port atty colors app).rets, app.mask.has f.lint = true))
      ∧ (app.mask = ⟨false, false, true⟩ →
          (∀ f ∈ findings (test_port atty colors app).rets, f.lint ≠ LINT_FAIL) →
          (test_port atty colors app).flag = true)
      ∧ (app.mask = ⟨false, false, true⟩ → app.show_.fail = true →
          (∃ f ∈ findings (test_port atty colors app).rets, f.lint = LINT_FAIL) →
          (test_port atty colors app).flag = false)
      ∧ (test_port atty colors app).rets.length = 9 := by
  obtain ⟨_, hlen, hflag, _⟩ := test_port_spec atty colors app
  have hiff : (test_port atty colors app).flag = false ↔
      (∃ f ∈ findings (test_port atty colors app).rets, app.show_.has f.lint = true)
        ∧ (∃ f ∈ findings (test_port atty colors app).rets, app.mask.has f.lint = true) := by
    rw [hflag, ← any_res_in_mask, ← any_res_in_mask]
    cases (test_port atty colors app).rets.any (res_in_mask app.show_) <;>
      cases (test_port atty colors app).rets.any (res_in_mask app.mask) <;> simp
  refine ⟨hiff, ?_, ?_, hlen⟩
  · intro hmask hno
    cases hfl : (test_port atty colors app).flag with
    | true => rfl
    | false =>
      obtain ⟨_, f, hf, hin⟩ := hiff.mp hfl
      exfalso
      apply hno f hf
      rw [hmask] at hin
      cases hl : f.lint <;> simp [Mask.has, hl] at hin ⊢
  · intro hmask hshow hex
    obtain ⟨f, hf, hl⟩ := hex
    apply hiff.mpr
    refine ⟨⟨f, hf, ?_⟩, ⟨f, hf, ?_⟩⟩
    · simp [Mask.has, hl, hshow]
    · simp [Mask.has, hl, hmask]

/-- C1, witness: with FAIL displayed, the FAIL Finding of `ex_event_port` makes
`test_port` return `false`. -/
theorem C1_witness :
    ex_app_shown_fail.mask = ⟨false, false, true⟩
      ∧ ex_app_shown_fail.show_.fail = true
      ∧ (∃ f ∈ findings (test_port false no_colors ex_app_shown_fail).rets,
          f.lint = LINT_FAIL)
      ∧ (test_port false no_colors ex_app_shown_fail).flag = false :=
  ⟨rfl, rfl, by decide,
    (C1_verdict false no_colors ex_app_shown_fail).2.2.1 rfl rfl (by decide)⟩

/-! ## The coercion rules: Default, Minimum, Maximum -/

theorem test_num_cases (node : Option LilvNode) (rets : num_idx → ret_t)
    (i t : Bool) (val : F32) :
    (_test_num node rets i t val).1 = none
      ∨ (_test_num node rets i t val).1 = some (rets NUM_NOT_FOUND) ∧ node = none
      ∨ (_test_num node rets i t val).1 = some (rets NUM_NOT_AN_INT) ∧ i = true
      ∨ (_test_num node rets i t val).1 = some (rets NUM_NOT_A_BOOL) ∧ i = false ∧ t = true
      ∨ (_test_num node rets i t val).1 = some (rets NUM_NOT_A_FLOAT) ∧ i = false ∧ t = false := by
  cases node with
  | none => simp [_test_num]
  | some n =>
    simp only [_test_num]
    cases i <;> cases t <;> simp only [Bool.false_eq_true, if_true, if_false] <;>
      split <;> simp

theorem test_num_value (node : Option LilvNode) (rets : num_idx → ret_t)
    (i t : Bool) (val : F32) :
    (_test_num node rets i t val).2 = ((node.bind num_value).getD val) := by
  cases node with
  | none => simp [_test_num]
  | some n =>
    cases n with
    | bool b => cases b <;> simp [_test_num, num_value, lilv_node_is_int, lilv_node_is_float,
        lilv_node_is_bool, lilv_node_as_bool]
    | _ => simp [_test_num, num_value, lilv_node_is_int, lilv_node_is_float,
        lilv_node_is_bool, lilv_node_as_int, lilv_node_as_float]

theorem test_default_eq (app : app_t) :
    _test_default app =
      if coercion_kind app.port then
        ((_test_num app.port.default ret_default (is_integer app.port) (is_toggled app.port)
            F32.zero).1,
          { app with dflt := (_test_num app.port.default ret_default (is_integer app.port)
            (is_toggled app.port) F32.zero).2 })
      else (none, { app with dflt := F32.zero }) := by
  rfl

theorem test_minimum_eq (app : app_t) :
    _test_minimum app =
      if coercion_kind app.port && !is_toggled app.port then
        ((_test_num app.port.minimum ret_minimum (is_integer app.port) (is_toggled app.port)
            F32.zero).1,
          { app with min := (_test_num app.port.minimum ret_minimum (is_integer app.port)
            (is_toggled app.port) F32.zero).2 })
      else (none, { app with min := F32.zero }) := by
  rfl

theorem test_maximum_eq (app : app_t) :
    _test_maximum app =
      if coercion_kind app.port && !is_toggled app.port then
        ((_test_num app.port.maximum ret_maximum (is_integer app.port) (is_toggled app.port)
            F32.one).1,
          { app with max := (_test_num app.port.maximum ret_maximum (is_integer app.port)
            (is_toggled app.port) F32.one).2 })
      else (none, { app with max := F32.one }) := by
  rfl

/-! ## C2: toggled ports -/

/-- C2, counterexample: on a toggled port that is also integer, the Default rule
returns the "not an integer" Finding for the default `true`; and on a toggled
port without default it returns "not found", which is neither the "not a bool"
Finding nor no Finding. -/
theorem C2_counterexample :
    (is_toggled ex_app_toggled_integer.port = true
        ∧ (_test_default ex_app_toggled_integer).1 = some (ret_default NUM_NOT_AN_INT))
      ∧ (is_toggled ex_app_toggled_no_default.port = true
        ∧ (_test_default ex_app_toggled_no_default).1 = some (ret_default NUM_NOT_FOUND)
        ∧ ret_default NUM_NOT_FOUND ≠ ret_default NUM_NOT_A_BOOL) := by
  decide

/-- C2, as amended: on a toggled port the Minimum and Maximum rules return no
Finding; the Default rule returns "not an integer" only when the port is also
integer: without the integer property it returns "not a bool", "not found" or
no Finding, with it "not an integer", "not found" or no Finding. -/
theorem C2_toggled (app : app_t) (h : is_toggled app.port = true) :
    (_test_minimum app).1 = none
      ∧ (_test_maximum app).1 = none
      ∧ (is_integer app.port = false →
          (_test_default app).1 = none
            ∨ (_test_default app).1 = some (ret_default NUM_NOT_A_BOOL)
            ∨ (_test_default app).1 = some (ret_default NUM_NOT_FOUND))
      ∧ (is_integer app.port = true →
          (_test_default app).1 = none
            ∨ (_test_default app).1 = some (ret_default NUM_NOT_AN_INT)
            ∨ (_test_default app).1 = some (ret_default NUM_NOT_FOUND))
      ∧ ((_test_default app).1 = some (ret_default NUM_NOT_AN_INT) →
          is_integer app.port = true) := by
  have hcases := test_num_cases app.port.default ret_default (is_integer app.port)
    (is_toggled app.port) F32.zero
  have hd : (_test_default app).1 = none
      ∨ (_test_default app).1 = (_test_num app.port.default ret_default (is_integer app.port)
          (is_toggled app.port) F32.zero).1 := by
    rw [test_default_eq]
    split <;> simp
  refine ⟨?_, ?_, ?_, ?_, ?_⟩
  · rw [test_minimum_eq, h]; simp
  · rw [test_maximum_eq, h]; simp
  · intro hi
    rcases hd with hd | hd
    · exact Or.inl hd
    · rw [hd]
      rcases hcases with hc | ⟨hc, _⟩ | ⟨_, hc⟩ | ⟨hc, _⟩ | ⟨_, _, hc⟩
      · exact Or.inl hc
      · exact Or.inr (Or.inr hc)
      · rw [hi] at hc; cases hc
      · exact Or.inr (Or.inl hc)
      · rw [h] at hc; cases hc
  · intro hi
    rcases hd with hd | hd
    · exact Or.inl hd
    · rw [hd]
      rcases hcases with hc | ⟨hc, _⟩ | ⟨hc, _⟩ | ⟨_, hc, _⟩ | ⟨_, hc, _⟩
      · exact Or.inl hc
      · exact Or.inr (Or.inr hc)
      · exact Or.inr (Or.inl hc)
      · rw [hi] at hc; cases hc
      · rw [hi] at hc; cases hc
  · intro hr
    rcases hd with hd | hd
    · rw [hd] at hr; cases hr
    · rw [hd] at hr
      rcases hcases with hc | ⟨hc, _⟩ | ⟨_, hc⟩ | ⟨hc, _⟩ | ⟨hc, _⟩
      · rw [hc] at hr; cases hr
      · rw [hc] at hr; exact absurd hr (by decide)
      · exact hc
      · rw [hc] at hr; exact absurd hr (by decide)
      · rw [hc] at hr; exact absurd hr (by decide)

/-- C2, witness: the toggled port whose default is the Int `5` gets
"not a bool" from the Default rule and nothing from Minimum and Maximum. -/
theorem C2_witness :
    is_toggled ex_app_toggled_five.port = true
      ∧ (_test_minimum ex_app_toggled_five).1 = none
      ∧ (_test_maximum ex_app_toggled_five).1 = none
      ∧ (_test_default ex_app_toggled_five).1 = some (ret_default NUM_NOT_A_BOOL) :=
  ⟨by decide, (C2_toggled ex_app_toggled_five (by decide)).1,
    (C2_toggled ex_app_toggled_five (by decide)).2.1, by decide⟩

/-! ## C3: the Context fields after the coercion rules -/

theorem F32_le_fallback : F32.le F32.zero F32.zero = true ∧ F32.le F32.zero F32.one = true := by
  decide

theorem range_after_skipped (app : app_t) (h : coercion_kind app.port = false)
    (u1 u2 u3 : Option String) :
    (_test_range { (_test_maximum { (_test_minimum
        { (_test_default app).2 with urn := u1 }).2 with urn := u2 }).2 with urn := u3 }).1
      = none := by
  simp only [test_default_eq, test_minimum_eq, test_maximum_eq, h, Bool.false_and,
    Bool.false_eq_true, if_false]
  unfold _test_range
  simp only [F32_le_fallback.1, F32_le_fallback.2, Bool.and_self, Bool.not_true,
    Bool.false_eq_true, if_false]
  split <;> rfl

/-- C4: on a port that is not both (ControlPort or CVPort) and InputPort, the
Range rule returns no Finding when it runs after Default, Minimum and Maximum,
whatever the Context held before: both for the four rules run one after the
other and for the sixth result of the registry run by `test_port`. -/
theorem C4_range_after_skipped (app : app_t) (h : coercion_kind app.port = false) :
    (_test_range (_test_maximum (_test_minimum (_test_default app).2).2).2).1 = none
      ∧ ∀ (atty : Bool) (colors : Bool → ansi_color → String),
          ((test_port atty colors app).rets.get? 5).map (fun res => res.ret) = some none := by
  refine ⟨range_after_skipped app h _ _ _, ?_⟩
  intro atty colors
  rw [(test_port_spec atty colors app).1]
  have hp : (_test_properties { (_test_class { app with urn := none }).2 with urn := none }).2.port
      = app.port := by
    rw [(test_properties_frame _).2.1]
    exact (test_class_frame _).2.1
  have key := range_after_skipped
    { (_test_properties { (_test_class { app with urn := none }).2 with urn := none }).2
        with urn := none } (by rw [← h]; exact congrArg coercion_kind hp) none none none
  simp only [tests, test_port_run, List.get?_cons_succ, List.get?_cons_zero, Option.map_some']
  exact congrArg some key

/-- C4, witness: a control output port whose literals are out of order
(minimum 5, default 3, maximum 4) gets no Range Finding. -/
theorem C4_witness :
    coercion_kind ex_app_control_output.port = false
      ∧ (_test_range (_test_maximum (_test_minimum
          (_test_default ex_app_control_output).2).2).2).1 = none
      ∧ ((test_port false no_colors ex_app_control_output).rets.get? 5).map
          (fun res => res.ret) = some none :=
  ⟨by decide, (C4_range_after_skipped ex_app_control_output (by decide)).1,
    (C4_range_after_skipped ex_app_control_output (by decide)).2 false no_colors⟩

/-! ## C5: the Range rule -/

theorem F32_le_iff (a b : F32) :
    F32.le a b = true ↔
      F32.gt a b = false ∧ F32.isNaN a = false ∧ F32.isNaN b = false := by
  cases a <;> cases b <;> simp [F32.le, F32.gt, F32.isNaN]

theorem test_range_eq (app : app_t) :
    _test_range app =
      (if is_control_or_cv app.port
          && !(F32.le app.min app.dflt && F32.le app.dflt app.max) then some ret_range
        else none, app) := by
  unfold _test_range is_control_or_cv uris_lv2_ControlPort uris_lv2_CVPort
  cases (lilv_port_is_a app.port LV2_CORE__ControlPort
      || lilv_port_is_a app.port LV2_CORE__CVPort) <;>
    cases (F32.le app.min app.dflt && F32.le app.dflt app.max) <;> rfl

/-- C5, counterexample: on a control port with the Context triple
`(NaN, 0.0, 1.0)` the Range rule returns its FAIL Finding, although neither
`minimum_value > default_value` nor `default_value > maximum_value` holds. -/
theorem C5_counterexample :
    is_control_or_cv ex_app_nan_minimum.port = true
      ∧ (_test_range ex_app_nan_minimum).1 = some ret_range
      ∧ F32.gt ex_app_nan_minimum.min ex_app_nan_minimum.dflt = false
      ∧ F32.gt ex_app_nan_minimum.dflt ex_app_nan_minimum.max = false := by
  decide

/-- C5, as amended: the Range rule returns its FAIL Finding if and only if the
port is a ControlPort or CVPort and `minimum_value <= default_value <=
maximum_value` does not hold, that is: `minimum_value > default_value`, or
`default_value > maximum_value`, or one of the three values is NaN.  It returns
no Finding otherwise, in particular on any other port, and it leaves the
Context as it was.  The triple `(2.0, 1.0, 5.0)` gives FAIL and
`(0.0, 0.5, 1.0)` no Finding. -/
theorem C5_range (app : app_t) :
    ((_test_range app).1 = some ret_range ↔
        is_control_or_cv app.port = true
          ∧ ¬ (F32.le app.min app.dflt = true ∧ F32.le app.dflt app.max = true))
      ∧ ((_test_range app).1 = some ret_range ↔
        is_control_or_cv app.port = true
          ∧ (F32.gt app.min app.dflt = true ∨ F32.gt app.dflt app.max = true
            ∨ F32.isNaN app.min = true ∨ F32.isNaN app.dflt = true
            ∨ F32.isNaN app.max = true))
      ∧ ((_test_range app).1 = none ∨ (_test_range app).1 = some ret_range)
      ∧ (is_control_or_cv app.port = false → (_test_range app).1 = none)
      ∧ (_test_range app).2 = app
      ∧ ret_range.lint = LINT_FAIL
      ∧ (_test_range ex_app_range_bad).1 = some ret_range
      ∧ (_test_range ex_app_range_good).1 = none := by
  have h1 : (_test_range app).1 = some ret_range ↔
      is_control_or_cv app.port = true
        ∧ ¬ (F32.le app.min app.dflt = true ∧ F32.le app.dflt app.max = true) := by
    rw [test_range_eq]
    cases is_control_or_cv app.port <;> cases F32.le app.min app.dflt <;>
      cases F32.le app.dflt app.max <;> simp
  refine ⟨h1, ?_, ?_, ?_, ?_, rfl, by decide, ?_⟩
  · rw [h1, F32_le_iff, F32_le_iff]
    cases is_control_or_cv app.port <;> cases F32.gt app.min app.dflt <;>
      cases F32.gt app.dflt app.max <;> cases F32.isNaN app.min <;>
      cases F32.isNaN app.dflt <;> cases F32.isNaN app.max <;> simp
  · rw [test_range_eq]
    split <;> simp
  · intro h
    rw [test_range_eq, h]
    rfl
  · rw [test_range_eq]
  · have ha : F32.le ex_app_range_good.min ex_app_range_good.dflt = true := by
      simp [ex_app_range_good, F32.le]
    have hb : F32.le ex_app_range_good.dflt ex_app_range_good.max = true := by
      simp [ex_app_range_good, F32.le]
      norm_num
    rw [test_range_eq, ha, hb]
    rfl

/-- C5, witness: the port `ex_event_port` is neither ControlPort nor CVPort and
gets no Range Finding. -/
theorem C5_witness :
    is_control_or_cv ex_app_shown_fail.port = false
      ∧ (_test_range ex_app_shown_fail).1 = none :=
  ⟨by decide, (C5_range ex_app_shown_fail).2.2.2.1 (by decide)⟩

/-! ## C6: the Class rule -/

theorem nodes_contains_iff (valid : List String) (node : String) :
    lilv_nodes_contains (some valid) node = true ↔ node ∈ valid := by
  simp [lilv_nodes_contains, List.contains, List.elem_iff]

theorem foreach_not_contained_eq (valid : List String) (l : List String) :
    foreach_not_contained valid l = first_invalid valid l := by
  induction l with
  | nil => rfl
  | cons node rest ih =>
    unfold first_invalid at ih ⊢
    rw [foreach_not_contained, List.find?_cons, ih]
    by_cases h : node ∈ valid
    · have hc : lilv_nodes_contains (some valid) node = true := (nodes_contains_iff _ _).mpr h
      simp [hc, h]
    · have hc : lilv_nodes_contains (some valid) node = false := by
        cases hh : lilv_nodes_contains (some valid) node
        · rfl
        · exact absurd ((nodes_contains_iff _ _).mp hh) h
      simp [hc, h]

theorem first_invalid_eq_none (valid l : List String) :
    first_invalid valid l = none ↔ ∀ c ∈ l, c ∈ valid := by
  simp [first_invalid, List.find?_eq_none]

theorem test_class_eq (app : app_t) :
    _test_class app =
      (match app.world.port_classes with
        | none => (none, app)
        | some valid =>
          match first_invalid valid (app.port.classes.getD []) with
          | some c => (some (ret_class .CLASS_NOT_VALID), { app with urn := some c })
          | none => (none, app)) := by
  unfold _test_class
  cases app.world.port_classes with
  | none => rfl
  | some valid =>
    cases hs : app.port.classes with
    | none => simp [first_invalid]
    | some supported =>
      simp only [foreach_not_contained_eq, Option.getD_some]

/-- C6, counterexample: when the store knows no valid Port subclass (the query
answers `NULL`, the empty set), a port asserting the class `urn:example:C`, which
is not a member of the empty set, gets no Finding and no substitution. -/
theorem C6_counterexample :
    first_invalid ((ex_app_classes none (some ["urn:example:C"])).world.port_classes.getD [])
        ((ex_app_classes none (some ["urn:example:C"])).port.classes.getD [])
        = some "urn:example:C"
      ∧ (_test_class (ex_app_classes none (some ["urn:example:C"]))).1 = none
      ∧ (_test_class (ex_app_classes none (some ["urn:example:C"]))).2.urn = none := by
  decide

/-- C6, as amended: when the query for the valid Port subclasses answers a
collection `valid`, the Class rule returns the FAIL Finding with substitution
equal to the first asserted class that is not in `valid` when there is one, and
no Finding (the slot untouched) exactly when every asserted class is in `valid`;
when the query answers nothing (`NULL`: no valid subclass is known), the rule
returns no Finding whatever the port asserts.  Valid `{A, B}` and asserted
`{A, C}` give FAIL with substitution `C`. -/
theorem C6_class (app : app_t) :
    _test_class app =
        (match app.world.port_classes with
          | none => (none, app)
          | some valid =>
            match first_invalid valid (app.port.classes.getD []) with
            | some c => (some (ret_class .CLASS_NOT_VALID), { app with urn := some c })
            | none => (none, app))
      ∧ (∀ valid, app.world.port_classes = some valid →
          ((_test_class app).1 = none ↔ ∀ c ∈ app.port.classes.getD [], c ∈ valid))
      ∧ (ret_class .CLASS_NOT_VALID).lint = LINT_FAIL
      ∧ (_test_class (ex_app_classes (some ["A", "B"]) (some ["A", "C"]))).1
          = some (ret_class .CLASS_NOT_VALID)
      ∧ (_test_class (ex_app_classes (some ["A", "B"]) (some ["A", "C"]))).2.urn = some "C" := by
  refine ⟨test_class_eq app, ?_, rfl, by decide, by decide⟩
  intro valid hv
  rw [test_class_eq, hv, ← first_invalid_eq_none]
  cases h : first_invalid valid (app.port.classes.getD []) <;> simp [h]

/-- C6, witness: in a store that knows the usual port classes, a port asserting
only known classes gets no Finding from the Class rule. -/
theorem C6_witness :
    ex_app_shown_fail.world.port_classes
        = some [LV2_CORE__InputPort, LV2_CORE__ControlPort, LV2_CORE__CVPort,
            LV2_EVENT__EventPort, "http://lv2plug.in/ns/lv2core#OutputPort"]
      ∧ (_test_class ex_app_shown_fail).1 = none :=
  ⟨rfl, ((C6_class ex_app_shown_fail).2.1 _ rfl).mpr (by decide)⟩

/-! ## C7: the table of `_test_num` -/

theorem roundHalfEven_intCast (n : Int) : F32.roundHalfEven (n : ℚ) = n := by
  unfold F32.roundHalfEven
  simp

theorem rintf_eq_iff (f : F32) :
    F32.eq (F32.rintf f) f = true ↔ f.is_exact_integer ∨ f.is_infinite := by
  cases f with
  | nan => simp [F32.rintf, F32.eq, F32.is_exact_integer, F32.is_infinite]
  | ninf => simp [F32.rintf, F32.eq, F32.is_infinite]
  | pinf => simp [F32.rintf, F32.eq, F32.is_infinite]
  | fin q =>
    simp only [F32.rintf, F32.eq, decide_eq_true_eq, F32.is_exact_integer, F32.is_infinite,
      F32.fin.injEq, reduceCtorEq, or_self, or_false]
    constructor
    · intro h
      exact ⟨F32.roundHalfEven q, h.symm⟩
    · rintro ⟨n, rfl⟩
      rw [roundHalfEven_intCast]

theorem F32_eq_zero_iff (f : F32) : F32.eq f F32.zero = true ↔ f = F32.fin 0 := by
  cases f <;> simp [F32.eq, F32.zero]

theorem F32_eq_one_iff (f : F32) : F32.eq f F32.one = true ↔ f = F32.fin 1 := by
  cases f <;> simp [F32.eq, F32.one]

/-- C7, counterexample: with the integer flag set, the Float literal `+infinity`,
whose value is not an exact integer, gets no Finding (`rintf(x) == x` holds for
an infinity). -/
theorem C7_counterexample :
    ¬ F32.is_exact_integer F32.pinf
      ∧ (_test_num (some (.float F32.pinf)) ret_default true false F32.zero).1 = none := by
  refine ⟨?_, by decide⟩
  rintro ⟨n, h⟩
  cases h

/-- C7, as amended: for a literal that is present, `_test_num` returns: with the
integer flag, no Finding iff the literal is an Int, or a Float that is an exact
integer or an infinity, otherwise "not an integer"; else with the toggled
flag, no Finding iff the literal is a Bool, the Int 0 or 1, or the Float 0.0 or
1.0, otherwise "not a bool"; else no Finding iff the literal is an Int or a
Float, otherwise "not a float".  Every Finding of the three tables is a WARN. -/
theorem C7_test_num (node : LilvNode) (rets : num_idx → ret_t) (t : Bool) (val : F32) :
    (((_test_num (some node) rets true t val).1 = none ↔
          (∃ i, node = .int i)
            ∨ ∃ f, node = .float f ∧ (f.is_exact_integer ∨ f.is_infinite))
        ∧ ((_test_num (some node) rets true t val).1 = none
          ∨ (_test_num (some node) rets true t val).1 = some (rets NUM_NOT_AN_INT)))
      ∧ (((_test_num (some node) rets false true val).1 = none ↔
          (∃ b, node = .bool b) ∨ node = .int 0 ∨ node = .int 1
            ∨ node = .float (F32.fin 0) ∨ node = .float (F32.fin 1))
        ∧ ((_test_num (some node) rets false true val).1 = none
          ∨ (_test_num (some node) rets false true val).1 = some (rets NUM_NOT_A_BOOL)))
      ∧ (((_test_num (some node) rets false false val).1 = none ↔
          (∃ i, node = .int i) ∨ ∃ f, node = .float f)
        ∧ ((_test_num (some node) rets false false val).1 = none
          ∨ (_test_num (some node) rets false false val).1 = some (rets NUM_NOT_A_FLOAT)))
      ∧ (∀ idx, (ret_default idx).lint = LINT_WARN ∧ (ret_minimum idx).lint = LINT_WARN
          ∧ (ret_maximum idx).lint = LINT_WARN)
      ∧ ((ret_default NUM_NOT_AN_INT).msg = "lv2:default not an integer"
          ∧ (ret_default NUM_NOT_A_BOOL).msg = "lv2:default not a bool"
          ∧ (ret_default NUM_NOT_A_FLOAT).msg = "lv2:default not a float") := by
  refine ⟨⟨?_, ?_⟩, ⟨?_, ?_⟩, ⟨?_, ?_⟩, ?_, by decide⟩
  · cases node with
    | float f =>
      have h := rintf_eq_iff f
      simp only [_test_num, lilv_node_is_int, lilv_node_is_float, lilv_node_as_float,
        Bool.false_or, Bool.true_and, if_true]
      cases hr : F32.eq (F32.rintf f) f
      · rw [hr] at h
        simp at h
        simp [h]
      · rw [hr] at h
        simp at h
        simp [h]
    | _ => simp [_test_num, lilv_node_is_int, lilv_node_is_float]
  · simp only [_test_num, if_true]
    split <;> simp
  · cases node with
    | float f =>
      have h0 := F32_eq_zero_iff f
      have h1 := F32_eq_one_iff f
      simp only [_test_num, lilv_node_is_int, lilv_node_is_float, lilv_node_is_bool,
        lilv_node_as_float, Bool.false_or, Bool.true_and, Bool.false_and, if_true,
        Bool.false_eq_true, if_false]
      cases hz : F32.eq f F32.zero <;> cases ho : F32.eq f F32.one <;>
        rw [hz] at h0 <;> rw [ho] at h1 <;> simp at h0 h1 <;> simp [h0, h1]
    | int i =>
      simp [_test_num, lilv_node_is_int, lilv_node_is_float, lilv_node_is_bool,
        lilv_node_as_int]
      tauto
    | _ => simp [_test_num, lilv_node_is_int, lilv_node_is_float, lilv_node_is_bool]
  · simp only [_test_num, if_true, Bool.false_eq_true, if_false]
    split <;> simp
  · cases node <;> simp [_test_num, lilv_node_is_int, lilv_node_is_float]
  · simp only [_test_num, Bool.false_eq_true, if_false]
    split <;> simp
  · intro idx
    cases idx <;> decide

/-! ## C8: when the coercion rules run -/

/-- C8: the Default rule hands the `lv2:default` literal to `_test_num` exactly
when the port is (ControlPort or CVPort) and InputPort, the Minimum and Maximum
rules theirs exactly when in addition the port is not toggled.  Otherwise the
rule is skipped: no Finding, and the Context field is the fallback (`0.0`,
`0.0`, `1.0`) whatever the literal is.  When the rule runs and the literal is
absent it returns the WARN "not found" Finding; when the literal is present it
never does. -/
theorem C8_skip_conditions (app : app_t) :
    (_test_default app =
        (if coercion_kind app.port then
          ((_test_num app.port.default ret_default (is_integer app.port)
              (is_toggled app.port) F32.zero).1,
            { app with dflt := (_test_num app.port.default ret_default (is_integer app.port)
              (is_toggled app.port) F32.zero).2 })
        else (none, { app with dflt := F32.zero }))
      ∧ _test_minimum app =
        (if coercion_kind app.port && !is_toggled app.port then
          ((_test_num app.port.minimum ret_minimum (is_integer app.port)
              (is_toggled app.port) F32.zero).1,
            { app with min := (_test_num app.port.minimum ret_minimum (is_integer app.port)
              (is_toggled app.port) F32.zero).2 })
        else (none, { app with min := F32.zero }))
      ∧ _test_maximum app =
        (if coercion_kind app.port && !is_toggled app.port then
          ((_test_num app.port.maximum ret_maximum (is_integer app.port)
              (is_toggled app.port) F32.one).1,
            { app with max := (_test_num app.port.maximum ret_maximum (is_integer app.port)
              (is_toggled app.port) F32.one).2 })
        else (none, { app with max := F32.one })))
      ∧ (coercion_kind app.port = true →
          ((_test_default app).1 = some (ret_default NUM_NOT_FOUND) ↔ app.port.default = none))
      ∧ ((coercion_kind app.port && !is_toggled app.port) = true →
          ((_test_minimum app).1 = some (ret_minimum NUM_NOT_FOUND) ↔ app.port.minimum = none)
            ∧ ((_test_maximum app).1 = some (ret_maximum NUM_NOT_FOUND)
              ↔ app.port.maximum = none))
      ∧ (coercion_kind app.port = false →
          (_test_default app).1 = none ∧ (_test_default app).2.dflt = F32.zero)
      ∧ ((coercion_kind app.port && !is_toggled app.port) = false →
          (_test_minimum app).1 = none ∧ (_test_minimum app).2.min = F32.zero
            ∧ (_test_maximum app).1 = none ∧ (_test_maximum app).2.max = F32.one)
      ∧ ((ret_default NUM_NOT_FOUND).lint = LINT_WARN
          ∧ (ret_default NUM_NOT_FOUND).msg = "lv2:default not found"
          ∧ (ret_minimum NUM_NOT_FOUND).lint = LINT_WARN
          ∧ (ret_minimum NUM_NOT_FOUND).msg = "lv2:minimum not found"
          ∧ (ret_maximum NUM_NOT_FOUND).lint = LINT_WARN
          ∧ (ret_maximum NUM_NOT_FOUND).msg = "lv2:maximum not found") := by
  have hnf : ∀ (node : Option LilvNode) (rets : num_idx → ret_t) (i t : Bool) (val : F32),
      rets NUM_NOT_FOUND ≠ rets NUM_NOT_AN_INT → rets NUM_NOT_FOUND ≠ rets NUM_NOT_A_BOOL →
      rets NUM_NOT_FOUND ≠ rets NUM_NOT_A_FLOAT →
      ((_test_num node rets i t val).1 = some (rets NUM_NOT_FOUND) ↔ node = none) := by
    intro node rets i t val h1 h2 h3
    constructor
    · intro h
      rcases test_num_cases node rets i t val with hc | ⟨_, hc⟩ | ⟨hc, _⟩ | ⟨hc, _⟩ | ⟨hc, _⟩
      · rw [hc] at h; cases h
      · exact hc
      · rw [hc] at h; exact absurd (Option.some.inj h).symm h1
      · rw [hc] at h; exact absurd (Option.some.inj h).symm h2
      · rw [hc] at h; exact absurd (Option.some.inj h).symm h3
    · intro h
      rw [h]
      rfl
  refine ⟨⟨test_default_eq app, test_minimum_eq app, test_maximum_eq app⟩, ?_, ?_, ?_, ?_,
    by decide⟩
  · intro hk
    rw [test_default_eq, hk]
    exact hnf _ _ _ _ _ (by decide) (by decide) (by decide)
  · intro hk
    rw [test_minimum_eq, test_maximum_eq, hk]
    exact ⟨hnf _ _ _ _ _ (by decide) (by decide) (by decide),
      hnf _ _ _ _ _ (by decide) (by decide) (by decide)⟩
  · intro hk
    rw [test_default_eq, hk]
    exact ⟨rfl, rfl⟩
  · intro hk
    rw [test_minimum_eq, test_maximum_eq, hk]
    exact ⟨rfl, rfl, rfl, rfl⟩

/-- C8, witness: on the toggled control input port without default, the Default
rule runs and returns "not found", while Minimum and Maximum are skipped and
leave `0.0` and `1.0`. -/
theorem C8_witness :
    coercion_kind ex_app_toggled_no_default.port = true
      ∧ (coercion_kind ex_app_toggled_no_default.port
          && !is_toggled ex_app_toggled_no_default.port) = false
      ∧ (_test_default ex_app_toggled_no_default).1 = some (ret_default NUM_NOT_FOUND)
      ∧ ((_test_minimum ex_app_toggled_no_default).1 = none
        ∧ (_test_minimum ex_app_toggled_no_default).2.min = F32.zero
        ∧ (_test_maximum ex_app_toggled_no_default).1 = none
        ∧ (_test_maximum ex_app_toggled_no_default).2.max = F32.one) :=
  ⟨by decide, by decide,
    ((C8_skip_conditions ex_app_toggled_no_default).2.1 (by decide)).mpr rfl,
    (C8_skip_conditions ex_app_toggled_no_default).2.2.2.2.1 (by decide)⟩

/-! ## C9: the value stored on success -/

theorem bitLength_le : ∀ (fuel k a : Nat), a < 2 ^ k → F32.bitLength fuel a ≤ k := by
  intro fuel
  induction fuel with
  | zero => intro k a _; simp [F32.bitLength]
  | succ fuel ih =>
    intro k a h
    unfold F32.bitLength
    split
    · exact Nat.zero_le _
    · rename_i ha
      cases k with
      | zero =>
        simp at h
        exact absurd h ha
      | succ k =>
        have : a / 2 < 2 ^ k := by
          rw [Nat.div_lt_iff_lt_mul (by norm_num)]
          rw [pow_succ] at h
          exact h
        exact Nat.succ_le_succ (ih k (a / 2) this)

theorem ofInt_exact (i : Int) (h : i.natAbs < 2 ^ 24) : F32.ofInt i = F32.fin i := by
  have he : F32.bitLength i.natAbs i.natAbs - 24 = 0 :=
    Nat.sub_eq_zero_of_le (bitLength_le _ 24 _ h)
  have hlt : ¬ (2 ^ 128 ≤ i.natAbs) := by
    have : (2 : Nat) ^ 24 < 2 ^ 128 := by norm_num
    omega
  have hcast : (if i < 0 then -((i.natAbs : Nat) : ℚ) else ((i.natAbs : Nat) : ℚ)) = (i : ℚ) := by
    by_cases hneg : i < 0
    · rw [if_pos hneg]
      have h1 : (i.natAbs : Int) = -i := by omega
      have h2 : (((i.natAbs : Nat) : Int) : ℚ) = ((-i : Int) : ℚ) := by rw [h1]
      rw [Int.cast_natCast, Int.cast_neg] at h2
      rw [h2, neg_neg]
    · rw [if_neg hneg]
      have h1 : (i.natAbs : Int) = i := by omega
      have h2 : (((i.natAbs : Nat) : Int) : ℚ) = ((i : Int) : ℚ) := by rw [h1]
      rw [Int.cast_natCast] at h2
      exact h2
  unfold F32.ofInt
  simp only [he, pow_zero, Nat.div_one, Nat.mod_one, mul_zero, mul_one]
  have hc : ¬ ((1 : Nat) < 0 ∨ ((0 : Nat) = 1 ∧ i.natAbs % 2 = 1)) := by
    rintro (h0 | ⟨h0, _⟩)
    · exact absurd h0 (by decide)
    · cases h0
  rw [if_neg hc, if_neg hlt, hcast]

theorem test_num_success (node : Option LilvNode) (rets : num_idx → ret_t)
    (i t : Bool) (val : F32) (h : (_test_num node rets i t val).1 = none) :
    ∃ n, node = some n ∧ holds_value_of (_test_num node rets i t val).2 n := by
  cases node with
  | none => simp [_test_num] at h
  | some n =>
    refine ⟨n, rfl, ?_⟩
    rw [test_num_value]
    cases n with
    | int j => exact Or.inl ⟨j, rfl, rfl⟩
    | float f => exact Or.inr (Or.inl ⟨f, rfl, rfl⟩)
    | bool b =>
      cases b
      · exact Or.inr (Or.inr (Or.inr ⟨rfl, rfl⟩))
      · exact Or.inr (Or.inr (Or.inl ⟨rfl, rfl⟩))
    | uri s =>
      exfalso
      revert h
      cases i <;> cases t <;>
        simp [_test_num, lilv_node_is_int, lilv_node_is_float, lilv_node_is_bool]
    | blank s =>
      exfalso
      revert h
      cases i <;> cases t <;>
        simp [_test_num, lilv_node_is_int, lilv_node_is_float, lilv_node_is_bool]
    | string s =>
      exfalso
      revert h
      cases i <;> cases t <;>
        simp [_test_num, lilv_node_is_int, lilv_node_is_float, lilv_node_is_bool]

theorem ofInt_exact_le (i : Int) (h : i.natAbs ≤ 2 ^ 24) : F32.ofInt i = F32.fin i := by
  rcases Nat.lt_or_ge i.natAbs (2 ^ 24) with hlt | hge
  · exact ofInt_exact i hlt
  · have he : i.natAbs = 2 ^ 24 := Nat.le_antisymm h hge
    have hi : i = 16777216 ∨ i = -16777216 := by omega
    rcases hi with hi | hi <;> subst hi <;> decide

theorem ofInt_near (i : Int) (h : i.natAbs < 2 ^ 32) :
    ∃ n : Int, F32.ofInt i = F32.fin n ∧ (n - i).natAbs ≤ 128 := by
  have hb : F32.bitLength i.natAbs i.natAbs ≤ 32 := bitLength_le _ 32 _ h
  have key : ∀ e : Nat, e ≤ 8 →
      ∃ m : Nat,
        (if 2 ^ e < 2 * (i.natAbs % 2 ^ e)
            ∨ (2 * (i.natAbs % 2 ^ e) = 2 ^ e ∧ i.natAbs / 2 ^ e % 2 = 1)
          then i.natAbs / 2 ^ e + 1 else i.natAbs / 2 ^ e) * 2 ^ e = m
          ∧ m ≤ i.natAbs + 128 ∧ i.natAbs ≤ m + 128 := by
    intro e he
    have hP1 : 1 ≤ 2 ^ e := Nat.one_le_two_pow
    have hP2 : 2 ^ e ≤ 256 := by
      calc 2 ^ e ≤ 2 ^ 8 := Nat.pow_le_pow_right (by norm_num) he
        _ = 256 := by norm_num
    have hdm := Nat.div_add_mod i.natAbs (2 ^ e)
    have hr := Nat.mod_lt i.natAbs (show 0 < 2 ^ e by omega)
    generalize 2 ^ e = P at hP1 hP2 hdm hr ⊢
    generalize i.natAbs / P = q at hdm ⊢
    generalize i.natAbs % P = r at hdm hr ⊢
    by_cases hc : P < 2 * r ∨ (2 * r = P ∧ q % 2 = 1)
    · rw [if_pos hc]
      have hm : (q + 1) * P = P * q + P := by ring
      refine ⟨(q + 1) * P, rfl, ?_, ?_⟩
      · rw [hm]; omega
      · rw [hm]; omega
    · rw [if_neg hc]
      have hm : q * P = P * q := by ring
      refine ⟨q * P, rfl, ?_, ?_⟩
      · rw [hm]; omega
      · rw [hm]; omega
  obtain ⟨m, hm, hm1, hm2⟩ := key (F32.bitLength i.natAbs i.natAbs - 24) (by omega)
  have hov : ¬ (2 ^ 128 ≤ m) := by
    have h128 : (2 : Nat) ^ 32 + 128 < 2 ^ 128 := by norm_num
    omega
  refine ⟨if i < 0 then -(m : Int) else (m : Int), ?_, ?_⟩
  · unfold F32.ofInt
    simp only [hm, if_neg hov]
    congr 1
    by_cases hneg : i < 0
    · rw [if_pos hneg, if_pos hneg]
      push_cast
      rfl
    · rw [if_neg hneg, if_neg hneg]
      push_cast
      rfl
  · by_cases hneg : i < 0
    · rw [if_pos hneg]
      omega
    · rw [if_neg hneg]
      omega

/-- C9, counterexample: on a plain control input port whose default is the Int
`16777217`, the Default rule is not skipped and returns no Finding, and
afterwards `default_value` is `16777216.0`, not the integer value of the
literal. -/
theorem C9_counterexample :
    coercion_kind ex_app_large_default.port = true
      ∧ ex_app_large_default.port.default = some (.int 16777217)
      ∧ (_test_default ex_app_large_default).1 = none
      ∧ (_test_default ex_app_large_default).2.dflt = F32.fin 16777216
      ∧ F32.fin 16777216 ≠ F32.fin 16777217 := by
  decide

/-- C9, as amended: when the Default, Minimum or Maximum rule is not skipped and
returns no Finding, its literal is present and is an Int, a Float or a Bool, and
the Context field afterwards holds its coerced numeric value: for an Int the
integer converted to `float`, which is the integer itself when its magnitude is
at most `2^24` and, for every 32 bit integer, an integer at most `128` away
from it (`16777217` gives `16777216.0`); for a Float the float value; for a
Bool `1.0` / `0.0` for `true` / `false`. -/
theorem C9_success_value (app : app_t) :
    (coercion_kind app.port = true → (_test_default app).1 = none →
        ∃ node, app.port.default = some node
          ∧ holds_value_of (_test_default app).2.dflt node)
      ∧ ((coercion_kind app.port && !is_toggled app.port) = true →
        (_test_minimum app).1 = none →
        ∃ node, app.port.minimum = some node
          ∧ holds_value_of (_test_minimum app).2.min node)
      ∧ ((coercion_kind app.port && !is_toggled app.port) = true →
        (_test_maximum app).1 = none →
        ∃ node, app.port.maximum = some node
          ∧ holds_value_of (_test_maximum app).2.max node)
      ∧ (∀ i : Int, i.natAbs < 2 ^ 24 → F32.ofInt i = F32.fin i)
      ∧ (∀ i : Int, i.natAbs ≤ 2 ^ 24 → F32.ofInt i = F32.fin i)
      ∧ (∀ i : Int, i.natAbs < 2 ^ 32 →
          ∃ n : Int, F32.ofInt i = F32.fin n ∧ (n - i).natAbs ≤ 128)
      ∧ F32.ofInt 16777217 = F32.fin 16777216 := by
  refine ⟨?_, ?_, ?_, ofInt_exact, ofInt_exact_le, ofInt_near, by decide⟩
  · intro hk
    rw [test_default_eq, hk]
    exact test_num_success _ _ _ _ _
  · intro hk
    rw [test_minimum_eq, hk]
    exact test_num_success _ _ _ _ _
  · intro hk
    rw [test_maximum_eq, hk]
    exact test_num_success _ _ _ _ _

/-- C9, witness: on the plain control input port with default `1`, minimum `0.0`
and maximum `2`, the three rules return no Finding and leave `1.0`, `0.0` and
`2.0` in the Context. -/
theorem C9_witness :
    (coercion_kind ex_app_plain_range.port && !is_toggled ex_app_plain_range.port) = true
      ∧ (_test_default ex_app_plain_range).1 = none
      ∧ (∃ node, ex_app_plain_range.port.default = some node
          ∧ holds_value_of (_test_default ex_app_plain_range).2.dflt node)
      ∧ (∃ node, ex_app_plain_range.port.minimum = some node
          ∧ holds_value_of (_test_minimum ex_app_plain_range).2.min node)
      ∧ (∃ node, ex_app_plain_range.port.maximum = some node
          ∧ holds_value_of (_test_maximum ex_app_plain_range).2.max node)
      ∧ (_test_default ex_app_plain_range).2.dflt = F32.fin 1 :=
  ⟨by decide, by decide,
    (C9_success_value ex_app_plain_range).1 (by decide) (by decide),
    (C9_success_value ex_app_plain_range).2.1 (by decide) (by decide),
    (C9_success_value ex_app_plain_range).2.2.1 (by decide) (by decide),
    by decide⟩

/-! ## C10: what `test_port` writes -/

theorem visible_count (m : Mask) :
    ∀ (ts : List test_t) (rets : List res_t), rets.length = ts.length →
      ((ts.zip rets).filter (fun p => res_in_mask m p.2)).length
        = (findings rets).countP (fun f => m.has f.lint)
  | [], [], _ => rfl
  | [], _ :: _, h => by simp at h
  | _ :: _, [], h => by simp at h
  | t :: ts, res :: rets, h => by
    have ih := visible_count m ts rets (by simpa using h)
    rw [List.zip_cons_cons, List.filter_cons]
    cases hr : res.ret with
    | none =>
      have hf : findings (res :: rets) = findings rets := by
        simp [findings, List.filterMap_cons, hr]
      rw [hf, res_in_mask_none m _ hr]
      simpa using ih
    | some ret =>
      have hf : findings (res :: rets) = ret :: findings rets := by
        simp [findings, List.filterMap_cons, hr]
      rw [hf, res_in_mask_some m _ ret hr, List.countP_cons]
      cases m.has ret.lint <;> simp [ih]

theorem fmt_d_small (i : Nat) (h : i < 2 ^ 31) : fmt_d i = toString i := by
  have h32 : i % 2 ^ 32 = i := Nat.mod_eq_of_lt (by omega)
  unfold fmt_d
  simp only [h32, if_pos h]

/-- C10: `test_port` writes the header line if and only if some Finding has a
severity of the display mask.  It then writes, after the header, exactly one
line for each rule whose Finding has a severity of the display mask, in registry
order, labelled FAIL, WARN or NOTE after the severity of that Finding; Findings
of other severities give no line, and when no Finding is visible nothing is
written.  The header line is `  <bold>{<index> : <symbol>}<reset>` with the index
of the port in decimal and its symbol. -/
theorem C10_report (atty : Bool) (colors : Bool → ansi_color → String) (app : app_t) :
    (test_port atty colors app).out =
        (if ∃ f ∈ findings (test_port atty colors app).rets, app.show_.has f.lint = true then
          header_line (colors atty) app.port
            :: ((tests.zip (test_port atty colors app).rets).filter
                (fun p => res_in_mask app.show_ p.2)).map (entry_line (colors atty))
        else [])
      ∧ ((test_port atty colors app).out.head? = some (header_line (colors atty) app.port) ↔
          ∃ f ∈ findings (test_port atty colors app).rets, app.show_.has f.lint = true)
      ∧ ((¬ ∃ f ∈ findings (test_port atty colors app).rets, app.show_.has f.lint = true) →
          (test_port atty colors app).out = [])
      ∧ ((∃ f ∈ findings (test_port atty colors app).rets, app.show_.has f.lint = true) →
          (test_port atty colors app).out.length
            = 1 + (findings (test_port atty colors app).rets).countP
                (fun f => app.show_.has f.lint))
      ∧ (∀ p ∈ (tests.zip (test_port atty colors app).rets).filter
            (fun p => res_in_mask app.show_ p.2),
          ∃ ret, p.2.ret = some ret ∧ app.show_.has ret.lint = true
            ∧ entry_line (colors atty) p =
              "    [" ++ colors atty (lint_color ret.lint) ++ lint_label ret.lint
                ++ colors atty ANSI_COLOR_RESET ++ "]  " ++ p.1.id ++ "=> "
                ++ message_text ret p.2.urn ++ " <" ++ ret.url ++ ">\n")
      ∧ (lint_label LINT_FAIL = "FAIL" ∧ lint_label LINT_WARN = "WARN"
          ∧ lint_label LINT_NOTE = "NOTE")
      ∧ header_line (colors atty) app.port
          = "  " ++ colors atty ANSI_COLOR_BOLD ++ "\x7b" ++ fmt_d app.port.index ++ " : "
            ++ app.port.symbol ++ "\x7d" ++ colors atty ANSI_COLOR_RESET ++ "\n"
      ∧ (app.port.index < 2 ^ 31 → fmt_d app.port.index = toString app.port.index)
      ∧ ((∃ f ∈ findings (test_port atty colors app).rets, app.show_.has f.lint = true) →
          app.port.index < 2 ^ 31 →
          (test_port atty colors app).out.head?
            = some ("  " ++ colors atty ANSI_COLOR_BOLD ++ "\x7b" ++ toString app.port.index
                ++ " : " ++ app.port.symbol ++ "\x7d" ++ colors atty ANSI_COLOR_RESET
                ++ "\n")) := by
  obtain ⟨_, hlen, _, hout⟩ := test_port_spec atty colors app
  have hany := any_res_in_mask app.show_ (test_port atty colors app).rets
  have h1 : (test_port atty colors app).out =
      (if ∃ f ∈ findings (test_port atty colors app).rets, app.show_.has f.lint = true then
        header_line (colors atty) app.port
          :: ((tests.zip (test_port atty colors app).rets).filter
              (fun p => res_in_mask app.show_ p.2)).map (entry_line (colors atty))
      else []) := by
    rw [hout]
    by_cases hv : ∃ f ∈ findings (test_port atty colors app).rets, app.show_.has f.lint = true
    · rw [if_pos hv, if_pos (hany.mpr hv)]
      rfl
    · rw [if_neg hv, if_neg (fun h => hv (hany.mp h))]
  refine ⟨h1, ?_, ?_, ?_, ?_, ⟨rfl, rfl, rfl⟩, rfl, fmt_d_small _, ?_⟩
  rotate_left 4
  · intro hv hi
    rw [h1, if_pos hv, List.head?_cons, ← fmt_d_small _ hi]
    rfl
  · rw [h1]
    by_cases hv : ∃ f ∈ findings (test_port atty colors app).rets, app.show_.has f.lint = true
    · rw [if_pos hv]
      simp [hv]
    · rw [if_neg hv]
      simp [hv]
  · intro hv
    rw [h1, if_neg hv]
  · intro hv
    rw [h1, if_pos hv, List.length_cons, List.length_map,
      visible_count app.show_ tests _ hlen, Nat.add_comm]
  · intro p hp
    rw [List.mem_filter] at hp
    obtain ⟨_, hp⟩ := hp
    cases hr : p.2.ret with
    | none => rw [res_in_mask_none _ _ hr] at hp; cases hp
    | some ret =>
      rw [res_in_mask_some _ _ ret hr] at hp
      exact ⟨ret, rfl, hp, by simp [entry_line, hr, finding_line]⟩

/-- C10, witness: for the port `ex_event_port` (index 2, symbol `events`) with
every severity displayed the output is the header followed by the one FAIL line
of the Event Port rule; with FAIL hidden nothing is written; and for the port
with index 0 and symbol `gain` the header is `  {0 : gain}`. -/
theorem C10_witness :
    (test_port false no_colors ex_app_shown_fail).out =
        ["  \x7b2 : events\x7d\n",
          "    [FAIL]  Event Port      => lv2:EventPort is deprecated, use atom:AtomPort instead <http://lv2plug.in/ns/ext/event#EventPort>\n"]
      ∧ (test_port false no_colors ex_app_hidden_fail).out = []
      ∧ (∃ f ∈ findings (test_port false no_colors ex_app_toggled_five).rets,
          ex_app_toggled_five.show_.has f.lint = true)
      ∧ (test_port false no_colors ex_app_toggled_five).out.head?
          = some "  \x7b0 : gain\x7d\n" :=
  ⟨by decide,
    (C10_report false no_colors ex_app_hidden_fail).2.2.1 (by decide),
    by decide,
    (C10_report false no_colors ex_app_toggled_five).2.2.2.2.2.2.2.2 (by decide) (by decide)⟩

/-! ## The registry as a sequence of calls -/

theorem test_port_run_cons (t : test_t) (ts : List test_t) (app : app_t) (msg : Bool) :
    test_port_run (t :: ts) app msg =
      (result_of t app
          :: (test_port_run ts (call_rule t.cb app).2
              (match (call_rule t.cb app).1 with
                | some ret =>
                  if (lint_and ret.lint (call_rule t.cb app).2.show_).isSome then true else msg
                | none => msg)).1,
        (test_port_run ts (call_rule t.cb app).2
              (match (call_rule t.cb app).1 with
                | some ret =>
                  if (lint_and ret.lint (call_rule t.cb app).2.show_).isSome then true else msg
                | none => msg)).2.1,
        (test_port_run ts (call_rule t.cb app).2
              (match (call_rule t.cb app).1 with
                | some ret =>
                  if (lint_and ret.lint (call_rule t.cb app).2.show_).isSome then true else msg
                | none => msg)).2.2) := by
  rfl

theorem test_port_run_final (ts : List test_t) (app : app_t) (msg : Bool) :
    (test_port_run ts app msg).2.2 = state_after ts app := by
  induction ts generalizing app msg with
  | nil => rfl
  | cons t rest ih =>
    rw [test_port_run_cons]
    exact ih _ _

theorem test_port_run_get (ts : List test_t) (app : app_t) (msg : Bool) (k : Nat) :
    (test_port_run ts app msg).1.get? k
      = (ts.get? k).map (fun t => result_of t (state_after (ts.take k) app)) := by
  induction ts generalizing app msg k with
  | nil => simp [test_port_run]
  | cons t rest ih =>
    rw [test_port_run_cons]
    cases k with
    | zero => simp [state_after]
    | succ k =>
      simp only [List.get?_cons_succ, List.take_succ_cons, state_after]
      exact ih _ _ _

theorem test_port_app (atty : Bool) (colors : Bool → ansi_color → String) (app : app_t) :
    (test_port atty colors app).app = state_after tests app := by
  rw [← test_port_run_final tests app false]
  unfold test_port
  simp only []
  split <;> rfl

theorem test_port_rets_get (atty : Bool) (colors : Bool → ansi_color → String) (app : app_t)
    (k : Nat) :
    (test_port atty colors app).rets.get? k
      = (tests.get? k).map (fun t => result_of t (state_after (tests.take k) app)) := by
  rw [(test_port_spec atty colors app).1]
  exact test_port_run_get tests app false k

/-! ## What each rule writes and what it reads -/

theorem test_class_footprint (app : app_t) :
    (_test_class app).2 = { app with urn := (_test_class app).2.urn } := by
  rw [test_class_eq]
  cases app.world.port_classes with
  | none => rfl
  | some valid =>
    cases h : first_invalid valid (app.port.classes.getD []) <;> simp only [h]

theorem test_properties_eq (app : app_t) :
    _test_properties app =
      (match app.world.port_properties with
        | none => (none, app)
        | some valid =>
          match first_invalid valid (app.port.properties.getD []) with
          | some c => (some (ret_properties .PROPERTIES_NOT_VALID), { app with urn := some c })
          | none => (none, app)) := by
  unfold _test_properties
  cases app.world.port_properties with
  | none => rfl
  | some valid =>
    cases hs : app.port.properties with
    | none => simp [first_invalid]
    | some supported =>
      simp only [foreach_not_contained_eq, Option.getD_some]

theorem test_properties_footprint (app : app_t) :
    (_test_properties app).2 = { app with urn := (_test_properties app).2.urn } := by
  rw [test_properties_eq]
  cases app.world.port_properties with
  | none => rfl
  | some valid =>
    cases h : first_invalid valid (app.port.properties.getD []) <;> simp only [h]

theorem test_default_footprint (app : app_t) :
    (_test_default app).2 = { app with dflt := (_test_default app).2.dflt } := by
  rw [test_default_eq]
  split <;> rfl

theorem test_minimum_footprint (app : app_t) :
    (_test_minimum app).2 = { app with min := (_test_minimum app).2.min } := by
  rw [test_minimum_eq]
  split <;> rfl

theorem test_maximum_footprint (app : app_t) :
    (_test_maximum app).2 = { app with max := (_test_maximum app).2.max } := by
  rw [test_maximum_eq]
  split <;> rfl

theorem test_class_context (app : app_t) (m d x : F32) :
    _test_class { app with min := m, dflt := d, max := x }
      = ((_test_class app).1, { (_test_class app).2 with min := m, dflt := d, max := x }) := by
  rw [test_class_eq, test_class_eq]
  simp only []
  cases app.world.port_classes with
  | none => rfl
  | some valid =>
    cases h : first_invalid valid (app.port.classes.getD []) <;> simp only [h]

theorem test_properties_context (app : app_t) (m d x : F32) :
    _test_properties { app with min := m, dflt := d, max := x }
      = ((_test_properties app).1,
          { (_test_properties app).2 with min := m, dflt := d, max := x }) := by
  rw [test_properties_eq, test_properties_eq]
  simp only []
  cases app.world.port_properties with
  | none => rfl
  | some valid =>
    cases h : first_invalid valid (app.port.properties.getD []) <;> simp only [h]

theorem test_default_context (app : app_t) (m d x : F32) :
    _test_default { app with min := m, dflt := d, max := x }
      = ((_test_default app).1, { (_test_default app).2 with min := m, max := x }) := by
  rw [test_default_eq, test_default_eq]
  simp only []
  cases coercion_kind app.port <;> rfl

theorem test_minimum_context (app : app_t) (m d x : F32) :
    _test_minimum { app with min := m, dflt := d, max := x }
      = ((_test_minimum app).1, { (_test_minimum app).2 with dflt := d, max := x }) := by
  rw [test_minimum_eq, test_minimum_eq]
  simp only []
  cases (coercion_kind app.port && !is_toggled app.port) <;> rfl

theorem test_maximum_context (app : app_t) (m d x : F32) :
    _test_maximum { app with min := m, dflt := d, max := x }
      = ((_test_maximum app).1, { (_test_maximum app).2 with min := m, dflt := d }) := by
  rw [test_maximum_eq, test_maximum_eq]
  simp only []
  cases (coercion_kind app.port && !is_toggled app.port) <;> rfl

theorem test_event_port_eq (app : app_t) :
    _test_event_port app =
      (if lilv_port_is_a app.port LV2_EVENT__EventPort then
          some (ret_event_port .EVENT_PORT_DEPRECATED)
        else none, app) := by
  unfold _test_event_port uris_event_EventPort
  cases lilv_port_is_a app.port LV2_EVENT__EventPort <;> rfl

theorem test_comment_eq (app : app_t) :
    _test_comment app =
      (match app.port.comment with
        | none => some (ret_comment .COMMENT_NOT_FOUND)
        | some comment =>
          if lilv_node_is_string comment then none
          else some (ret_comment .COMMENT_NOT_A_STRING), app) := by
  unfold _test_comment
  cases app.port.comment with
  | none => rfl
  | some comment => cases h : lilv_node_is_string comment <;> simp [h]

theorem test_group_eq (app : app_t) :
    _test_group app =
      (match app.port.group with
        | none => some (ret_group .GROUP_NOT_FOUND)
        | some group =>
          if lilv_node_is_uri group then none
          else some (ret_group .GROUP_NOT_A_URI), app) := by
  unfold _test_group
  cases app.port.group with
  | none => rfl
  | some group => cases h : lilv_node_is_uri group <;> simp [h]

/-! ## The registry does not depend on the Context it starts from -/

theorem run_cons_of_call (t : test_t) (rest : List test_t) (a b c : app_t) (msg : Bool)
    (h1 : (call_rule t.cb a).1 = (call_rule t.cb b).1)
    (h2 : (call_rule t.cb a).2.urn = (call_rule t.cb b).2.urn)
    (h3 : (call_rule t.cb a).2.show_ = (call_rule t.cb b).2.show_)
    (h4 : (call_rule t.cb a).2 = c)
    (hrest : ∀ msg1, test_port_run rest c msg1 = test_port_run rest (call_rule t.cb b).2 msg1) :
    test_port_run (t :: rest) a msg = test_port_run (t :: rest) b msg := by
  rw [test_port_run_cons, test_port_run_cons]
  simp only [result_of, h1, h2, h3]
  rw [h4]
  simp only [hrest]

theorem run_from_maximum (id : String) (rest : List test_t) (a : app_t) (x : F32) (msg : Bool) :
    test_port_run (⟨id, _test_maximum⟩ :: rest) { a with max := x } msg
      = test_port_run (⟨id, _test_maximum⟩ :: rest) a msg := by
  rfl

theorem run_from_minimum (id : String) (rest : List test_t)
    (hrest : ∀ (a : app_t) (x : F32) (msg : Bool),
      test_port_run rest { a with max := x } msg = test_port_run rest a msg)
    (a : app_t) (m x : F32) (msg : Bool) :
    test_port_run (⟨id, _test_minimum⟩ :: rest) { a with min := m, max := x } msg
      = test_port_run (⟨id, _test_minimum⟩ :: rest) a msg := by
  have hc : call_rule _test_minimum { a with min := m, max := x }
      = ((call_rule _test_minimum a).1, { (call_rule _test_minimum a).2 with max := x }) := by
    unfold call_rule
    rw [test_minimum_eq, test_minimum_eq]
    simp only []
    cases (coercion_kind a.port && !is_toggled a.port) <;> rfl
  exact run_cons_of_call _ rest _ _ { (call_rule _test_minimum a).2 with max := x } msg
    (by rw [hc]) (by rw [hc]) (by rw [hc]) (by rw [hc]) (fun msg1 => hrest _ _ _)

theorem run_from_default (id : String) (rest : List test_t)
    (hrest : ∀ (a : app_t) (m x : F32) (msg : Bool),
      test_port_run rest { a with min := m, max := x } msg = test_port_run rest a msg)
    (a : app_t) (m d x : F32) (msg : Bool) :
    test_port_run (⟨id, _test_default⟩ :: rest) { a with min := m, dflt := d, max := x } msg
      = test_port_run (⟨id, _test_default⟩ :: rest) a msg := by
  have hc : call_rule _test_default { a with min := m, dflt := d, max := x }
      = ((call_rule _test_default a).1,
          { (call_rule _test_default a).2 with min := m, max := x }) :=
    test_default_context { a with urn := none } m d x
  exact run_cons_of_call _ rest _ _ { (call_rule _test_default a).2 with min := m, max := x } msg
    (by rw [hc]) (by rw [hc]) (by rw [hc]) (by rw [hc]) (fun msg1 => hrest _ _ _ _)

theorem run_from_properties (id : String) (rest : List test_t)
    (hrest : ∀ (a : app_t) (m d x : F32) (msg : Bool),
      test_port_run rest { a with min := m, dflt := d, max := x } msg
        = test_port_run rest a msg)
    (a : app_t) (m d x : F32) (msg : Bool) :
    test_port_run (⟨id, _test_properties⟩ :: rest) { a with min := m, dflt := d, max := x } msg
      = test_port_run (⟨id, _test_properties⟩ :: rest) a msg := by
  have hc : call_rule _test_properties { a with min := m, dflt := d, max := x }
      = ((call_rule _test_properties a).1,
          { (call_rule _test_properties a).2 with min := m, dflt := d, max := x }) :=
    test_properties_context { a with urn := none } m d x
  exact run_cons_of_call _ rest _ _
    { (call_rule _test_properties a).2 with min := m, dflt := d, max := x } msg
    (by rw [hc]) (by rw [hc]) (by rw [hc]) (by rw [hc]) (fun msg1 => hrest _ _ _ _ _)

theorem run_from_class (id : String) (rest : List test_t)
    (hrest : ∀ (a : app_t) (m d x : F32) (msg : Bool),
      test_port_run rest { a with min := m, dflt := d, max := x } msg
        = test_port_run rest a msg)
    (a : app_t) (m d x : F32) (msg : Bool) :
    test_port_run (⟨id, _test_class⟩ :: rest) { a with min := m, dflt := d, max := x } msg
      = test_port_run (⟨id, _test_class⟩ :: rest) a msg := by
  have hc : call_rule _test_class { a with min := m, dflt := d, max := x }
      = ((call_rule _test_class a).1,
          { (call_rule _test_class a).2 with min := m, dflt := d, max := x }) :=
    test_class_context { a with urn := none } m d x
  exact run_cons_of_call _ rest _ _
    { (call_rule _test_class a).2 with min := m, dflt := d, max := x } msg
    (by rw [hc]) (by rw [hc]) (by rw [hc]) (by rw [hc]) (fun msg1 => hrest _ _ _ _ _)

theorem test_port_run_context (app : app_t) (m d x : F32) (u : Option String) (msg : Bool) :
    test_port_run tests (with_context app m d x u) msg = test_port_run tests app msg := by
  have hurn : test_port_run tests (with_context app m d x u) msg
      = test_port_run tests { app with min := m, dflt := d, max := x } msg := rfl
  rw [hurn]
  exact run_from_class _ _
    (run_from_properties _ _
      (run_from_default _ _
        (run_from_minimum _ _ (run_from_maximum _ _)))) app m d x msg

theorem test_port_context (atty : Bool) (colors : Bool → ansi_color → String) (app : app_t)
    (m d x : F32) (u : Option String) :
    test_port atty colors (with_context app m d x u) = test_port atty colors app := by
  unfold test_port
  rw [test_port_run_context]

/-! ## C12: the registry -/

/-- C12: the registry of `test_port` is the nine rules Class, PortProperties,
Default, Minimum, Maximum, Range, Event Port, Comment, Group in this order.
Entry `k` of the results is the result of rule `k` called once on the `app`
left by the calls of the rules before it, whatever these returned.  Range is
called on the `app` left by Default, Minimum and Maximum, in this order.
Default writes only `default_value`, Minimum only `minimum_value`, Maximum only
`maximum_value`; Class and PortProperties write only the slot, the other rules
nothing; and no rule other than Range returns a Finding that depends on the
three values. -/
theorem C12_registry (atty : Bool) (colors : Bool → ansi_color → String) (app : app_t) :
    (tests.map (fun t => t.id)
        = ["Class           ", "PortProperties  ", "Default         ", "Minimum         ",
            "Maximum         ", "Range           ", "Event Port      ", "Comment         ",
            "Group           "]
      ∧ tests.map (fun t => t.cb)
        = [_test_class, _test_properties, _test_default, _test_minimum, _test_maximum,
            _test_range, _test_event_port, _test_comment, _test_group])
      ∧ (test_port atty colors app).rets.length = 9
      ∧ (∀ k, (test_port atty colors app).rets.get? k
          = (tests.get? k).map (fun t => result_of t (state_after (tests.take k) app)))
      ∧ (test_port atty colors app).app = state_after tests app
      ∧ state_after (tests.take 5) app
          = (call_rule _test_maximum (call_rule _test_minimum (call_rule _test_default
              (state_after (tests.take 2) app)).2).2).2
      ∧ (∀ a : app_t,
          (_test_class a).2 = { a with urn := (_test_class a).2.urn }
            ∧ (_test_properties a).2 = { a with urn := (_test_properties a).2.urn }
            ∧ (_test_default a).2 = { a with dflt := (_test_default a).2.dflt }
            ∧ (_test_minimum a).2 = { a with min := (_test_minimum a).2.min }
            ∧ (_test_maximum a).2 = { a with max := (_test_maximum a).2.max }
            ∧ (_test_range a).2 = a
            ∧ (_test_event_port a).2 = a
            ∧ (_test_comment a).2 = a
            ∧ (_test_group a).2 = a)
      ∧ (∀ (a : app_t) (m d x : F32),
          (_test_class { a with min := m, dflt := d, max := x }).1 = (_test_class a).1
            ∧ (_test_properties { a with min := m, dflt := d, max := x }).1
                = (_test_properties a).1
            ∧ (_test_default { a with min := m, dflt := d, max := x }).1 = (_test_default a).1
            ∧ (_test_minimum { a with min := m, dflt := d, max := x }).1 = (_test_minimum a).1
            ∧ (_test_maximum { a with min := m, dflt := d, max := x }).1 = (_test_maximum a).1
            ∧ (_test_event_port { a with min := m, dflt := d, max := x }).1
                = (_test_event_port a).1
            ∧ (_test_comment { a with min := m, dflt := d, max := x }).1 = (_test_comment a).1
            ∧ (_test_group { a with min := m, dflt := d, max := x }).1 = (_test_group a).1) := by
  refine ⟨⟨rfl, rfl⟩, (test_port_spec atty colors app).2.1, test_port_rets_get atty colors app,
    test_port_app atty colors app, rfl, ?_, ?_⟩
  · intro a
    exact ⟨test_class_footprint a, test_properties_footprint a, test_default_footprint a,
      test_minimum_footprint a, test_maximum_footprint a, test_range_unchanged a,
      test_event_port_unchanged a, test_comment_unchanged a, test_group_unchanged a⟩
  · intro a m d x
    refine ⟨?_, ?_, ?_, ?_, ?_, ?_, ?_, ?_⟩
    · rw [test_class_context]
    · rw [test_properties_context]
    · rw [test_default_context]
    · rw [test_minimum_context]
    · rw [test_maximum_context]
    · rw [test_event_port_eq, test_event_port_eq]
    · rw [test_comment_eq, test_comment_eq]
    · rw [test_group_eq, test_group_eq]

/-! ## C13: independence of the Context left over -/

theorem state_eq_with_context (a s : app_t) (h : same_config a s) :
    s = with_context a s.min s.dflt s.max s.urn := by
  obtain ⟨h1, h2, h3, h4⟩ := h
  cases s
  cases a
  simp only [with_context] at *
  subst h1 h2 h3 h4
  rfl

/-- C13: the results, the text written and the verdict of `test_port` (and the
`app` it leaves) are the same for any two values of the Context fields
`minimum_value`, `default_value`, `maximum_value` and of the slot left over from
an earlier port; they are those of a fresh Context (`0.0`, `0.0`, `1.0`, empty
slot); and a second call on the `app` left by a first call returns and writes
the same as the first. -/
theorem C13_fresh_context (atty : Bool) (colors : Bool → ansi_color → String) (app : app_t)
    (m d x m1 d1 x1 : F32) (u u1 : Option String) :
    (test_port atty colors (with_context app m d x u)
        = test_port atty colors (with_context app m1 d1 x1 u1))
      ∧ (findings (test_port atty colors (with_context app m d x u)).rets
          = findings (test_port atty colors (with_context app m1 d1 x1 u1)).rets
        ∧ (test_port atty colors (with_context app m d x u)).out
          = (test_port atty colors (with_context app m1 d1 x1 u1)).out
        ∧ (test_port atty colors (with_context app m d x u)).flag
          = (test_port atty colors (with_context app m1 d1 x1 u1)).flag)
      ∧ (test_port atty colors (with_context app m d x u)
          = test_port atty colors (with_context app F32.zero F32.zero F32.one none))
      ∧ (test_port atty colors (test_port atty colors app).app = test_port atty colors app) := by
  have h : ∀ (m d x : F32) (u : Option String),
      test_port atty colors (with_context app m d x u) = test_port atty colors app :=
    test_port_context atty colors app
  refine ⟨by rw [h, h], ⟨by rw [h, h], by rw [h, h], by rw [h, h]⟩, by rw [h, h], ?_⟩
  have hs : same_config app (test_port atty colors app).app := by
    rw [test_port_app, ← test_port_run_final tests app false]
    exact (test_port_run_spec tests tests_frame app false).2.2
  rw [state_eq_with_context app _ hs, h]

/-! ## C14: the PortProperties rule -/

/-- C14, counterexample: when the store knows no port property (the query
answers `NULL`, the empty vocabulary), a port asserting the property
`urn:example:P`, which is not in the empty vocabulary, gets no Finding. -/
theorem C14_counterexample :
    first_invalid
        ((ex_app_properties none (some ["urn:example:P"])).world.port_properties.getD [])
        ((ex_app_properties none (some ["urn:example:P"])).port.properties.getD [])
        = some "urn:example:P"
      ∧ (_test_properties (ex_app_properties none (some ["urn:example:P"]))).1 = none
      ∧ (_test_properties (ex_app_properties none (some ["urn:example:P"]))).2.urn = none := by
  decide

/-- C14, as amended: when the query for the recognized port properties answers a
collection `valid`, the PortProperties rule returns the FAIL Finding with
substitution equal to the first asserted property that is not in `valid` when
there is one, and no Finding exactly when every asserted property is in
`valid`; one violation is reported even if several exist (vocabulary `{A}` and
asserted `X, A, Y` give FAIL with substitution `X`).  When the query answers
nothing (`NULL`: no port property is known), the rule returns no Finding
whatever the port asserts. -/
theorem C14_properties (app : app_t) :
    _test_properties app =
        (match app.world.port_properties with
          | none => (none, app)
          | some valid =>
            match first_invalid valid (app.port.properties.getD []) with
            | some c =>
              (some (ret_properties .PROPERTIES_NOT_VALID), { app with urn := some c })
            | none => (none, app))
      ∧ (∀ valid, app.world.port_properties = some valid →
          ((_test_properties app).1 = none ↔ ∀ c ∈ app.port.properties.getD [], c ∈ valid))
      ∧ (ret_properties .PROPERTIES_NOT_VALID).lint = LINT_FAIL
      ∧ (_test_properties (ex_app_properties (some ["A"]) (some ["X", "A", "Y"]))).1
          = some (ret_properties .PROPERTIES_NOT_VALID)
      ∧ (_test_properties (ex_app_properties (some ["A"]) (some ["X", "A", "Y"]))).2.urn
          = some "X" := by
  refine ⟨test_properties_eq app, ?_, rfl, by decide, by decide⟩
  intro valid hv
  rw [test_properties_eq, hv, ← first_invalid_eq_none]
  cases h : first_invalid valid (app.port.properties.getD []) <;> simp [h]

/-- C14, witness: in a store that knows `integer` and `toggled`, a port
asserting both gets no Finding from the PortProperties rule. -/
theorem C14_witness :
    ex_app_toggled_integer.world.port_properties
        = some [LV2_CORE__integer, LV2_CORE__toggled]
      ∧ (_test_properties ex_app_toggled_integer).1 = none :=
  ⟨rfl, ((C14_properties ex_app_toggled_integer).2.1 _ rfl).mpr (by decide)⟩

/-! ## C15, C16, C17: Comment, Group, Event Port -/

/-- C15: the Comment rule returns the NOTE Finding "rdfs:comment not found" iff
the literal is absent, the FAIL Finding "rdfs:comment not a string" iff it is
present and not a string, and no Finding iff it is present and a string: one of
three outcomes, so a port without comment gets the NOTE and not the FAIL.  The
rule leaves `app` as it was and its Finding does not depend on the Context. -/
theorem C15_comment (app : app_t) :
    ((_test_comment app).1 = some (ret_comment .COMMENT_NOT_FOUND) ↔ app.port.comment = none)
      ∧ ((_test_comment app).1 = some (ret_comment .COMMENT_NOT_A_STRING) ↔
          ∃ node, app.port.comment = some node ∧ ¬ ∃ s, node = .string s)
      ∧ ((_test_comment app).1 = none ↔ ∃ s, app.port.comment = some (.string s))
      ∧ ((_test_comment app).1 = none
          ∨ (_test_comment app).1 = some (ret_comment .COMMENT_NOT_FOUND)
          ∨ (_test_comment app).1 = some (ret_comment .COMMENT_NOT_A_STRING))
      ∧ (ret_comment .COMMENT_NOT_FOUND = ⟨LINT_NOTE, "rdfs:comment not found",
            "http://www.w3.org/2000/01/rdf-schema#comment"⟩
          ∧ ret_comment .COMMENT_NOT_A_STRING = ⟨LINT_FAIL, "rdfs:comment not a string",
            "http://www.w3.org/2000/01/rdf-schema#comment"⟩)
      ∧ (_test_comment app).2 = app
      ∧ (∀ (m d x : F32) (u : Option String),
          (_test_comment (with_context app m d x u)).1 = (_test_comment app).1) := by
  have hne : ret_comment .COMMENT_NOT_A_STRING ≠ ret_comment .COMMENT_NOT_FOUND := by decide
  refine ⟨?_, ?_, ?_, ?_, ⟨by decide, by decide⟩, test_comment_unchanged app, ?_⟩
  · rw [test_comment_eq]
    cases h : app.port.comment with
    | none => simp
    | some node => cases node <;> simp [lilv_node_is_string, hne]
  · rw [test_comment_eq]
    cases h : app.port.comment with
    | none => simp [hne.symm]
    | some node => cases node <;> simp [lilv_node_is_string]
  · rw [test_comment_eq]
    cases h : app.port.comment with
    | none => simp
    | some node => cases node <;> simp [lilv_node_is_string]
  · rw [test_comment_eq]
    cases h : app.port.comment with
    | none => simp
    | some node => cases node <;> simp [lilv_node_is_string]
  · intro m d x u
    rw [test_comment_eq, test_comment_eq]
    rfl

/-- C16: the Group rule returns the NOTE Finding "pg:group not found" iff the
`pg:group` value is absent, the FAIL Finding "pg:group not a URI" iff it is
present and not a URI, and no Finding iff it is present and a URI. -/
theorem C16_group (app : app_t) :
    ((_test_group app).1 = some (ret_group .GROUP_NOT_FOUND) ↔ app.port.group = none)
      ∧ ((_test_group app).1 = some (ret_group .GROUP_NOT_A_URI) ↔
          ∃ node, app.port.group = some node ∧ ¬ ∃ s, node = .uri s)
      ∧ ((_test_group app).1 = none ↔ ∃ s, app.port.group = some (.uri s))
      ∧ (ret_group .GROUP_NOT_FOUND = ⟨LINT_NOTE, "pg:group not found",
            "http://lv2plug.in/ns/ext/port-groups#group"⟩
          ∧ ret_group .GROUP_NOT_A_URI = ⟨LINT_FAIL, "pg:group not a URI",
            "http://lv2plug.in/ns/ext/port-groups#group"⟩)
      ∧ (_test_group app).2 = app := by
  have hne : ret_group .GROUP_NOT_A_URI ≠ ret_group .GROUP_NOT_FOUND := by decide
  refine ⟨?_, ?_, ?_, ⟨by decide, by decide⟩, test_group_unchanged app⟩
  · rw [test_group_eq]
    cases h : app.port.group with
    | none => simp
    | some node => cases node <;> simp [lilv_node_is_uri, hne]
  · rw [test_group_eq]
    cases h : app.port.group with
    | none => simp [hne.symm]
    | some node => cases node <;> simp [lilv_node_is_uri]
  · rw [test_group_eq]
    cases h : app.port.group with
    | none => simp
    | some node => cases node <;> simp [lilv_node_is_uri]

/-- C17: the Event Port rule returns its FAIL Finding iff the legacy class
EventPort is among the classes the port asserts; it leaves `app` as it was, and
its Finding is the same whatever the Context fields hold. -/
theorem C17_event_port (app : app_t) :
    ((_test_event_port app).1 = some (ret_event_port .EVENT_PORT_DEPRECATED) ↔
        LV2_EVENT__EventPort ∈ app.port.classes.getD [])
      ∧ ((_test_event_port app).1 = none ↔ LV2_EVENT__EventPort ∉ app.port.classes.getD [])
      ∧ ret_event_port .EVENT_PORT_DEPRECATED
          = ⟨LINT_FAIL, "lv2:EventPort is deprecated, use atom:AtomPort instead",
              "http://lv2plug.in/ns/ext/event#EventPort"⟩
      ∧ (_test_event_port app).2 = app
      ∧ (∀ (m d x : F32) (u : Option String),
          _test_event_port (with_context app m d x u)
            = ((_test_event_port app).1, with_context app m d x u)) := by
  have hmem : lilv_port_is_a app.port LV2_EVENT__EventPort = true ↔
      LV2_EVENT__EventPort ∈ app.port.classes.getD [] := by
    simp [lilv_port_is_a, lilv_nodes_contains, List.contains, List.elem_iff]
  refine ⟨?_, ?_, by decide, test_event_port_unchanged app, ?_⟩
  · rw [test_event_port_eq, ← hmem]
    cases lilv_port_is_a app.port LV2_EVENT__EventPort <;> simp
  · rw [test_event_port_eq, ← hmem]
    cases lilv_port_is_a app.port LV2_EVENT__EventPort <;> simp
  · intro m d x u
    rw [test_event_port_eq, test_event_port_eq]
    rfl

/-! ## C18: the verdict is gated by the display mask -/

/-- C18: when no Finding has a severity of the display mask, `test_port` returns
`true` whatever the failure mask and the Findings; when some Finding has one,
it returns `false` iff some Finding has a severity of the failure mask; hence,
when the display mask contains every severity of the failure mask, it returns
`false` iff some Finding has a severity of the failure mask. -/
theorem C18_gated_verdict (atty : Bool) (colors : Bool → ansi_color → String) (app : app_t) :
    ((¬ ∃ f ∈ findings (test_port atty colors app).rets, app.show_.has f.lint = true) →
        (test_port atty colors app).flag = true)
      ∧ ((∃ f ∈ findings (test_port atty colors app).rets, app.show_.has f.lint = true) →
        ((test_port atty colors app).flag = false ↔
          ∃ f ∈ findings (test_port atty colors app).rets, app.mask.has f.lint = true))
      ∧ ((∀ s, app.mask.has s = true → app.show_.has s = true) →
        ((test_port atty colors app).flag = false ↔
          ∃ f ∈ findings (test_port atty colors app).rets, app.mask.has f.lint = true)) := by
  obtain ⟨_, _, hflag, _⟩ := test_port_spec atty colors app
  have hs := any_res_in_mask app.show_ (test_port atty colors app).rets
  have hm := any_res_in_mask app.mask (test_port atty colors app).rets
  have hiff : (test_port atty colors app).flag = false ↔
      (∃ f ∈ findings (test_port atty colors app).rets, app.show_.has f.lint = true)
        ∧ (∃ f ∈ findings (test_port atty colors app).rets, app.mask.has f.lint = true) := by
    rw [hflag, ← hs, ← hm]
    cases (test_port atty colors app).rets.any (res_in_mask app.show_) <;>
      cases (test_port atty colors app).rets.any (res_in_mask app.mask) <;> simp
  refine ⟨?_, ?_, ?_⟩
  · intro hno
    cases hf : (test_port atty colors app).flag with
    | true => rfl
    | false => exact absurd (hiff.mp hf).1 hno
  · intro hv
    rw [hiff]
    exact ⟨fun h => h.2, fun h => ⟨hv, h⟩⟩
  · intro hsub
    rw [hiff]
    refine ⟨fun h => h.2, fun h => ⟨?_, h⟩⟩
    obtain ⟨f, hf, hin⟩ := h
    exact ⟨f, hf, hsub _ hin⟩

/-- C18, witness: with the display mask `{NOTE, WARN}` the FAIL Finding of
`ex_event_port` is not visible and `test_port` returns `true`; with every
severity displayed it returns `false`. -/
theorem C18_witness :
    (¬ ∃ f ∈ findings (test_port false no_colors ex_app_hidden_fail).rets,
        ex_app_hidden_fail.show_.has f.lint = true)
      ∧ (test_port false no_colors ex_app_hidden_fail).flag = true
      ∧ (∀ s, ex_app_shown_fail.mask.has s = true → ex_app_shown_fail.show_.has s = true)
      ∧ (test_port false no_colors ex_app_shown_fail).flag = false :=
  ⟨by decide, (C18_gated_verdict false no_colors ex_app_hidden_fail).1 (by decide),
    fun s _ => by cases s <;> rfl,
    ((C18_gated_verdict false no_colors ex_app_shown_fail).2.2
      (fun s _ => by cases s <;> rfl)).mpr (by decide)⟩

/-! ## C11: the rendered message -/

theorem printf_rest_plain : ∀ (l : List Char), '%' ∉ l → printf_rest l = l
  | [], _ => rfl
  | c :: rest, h => by
    have hc : c ≠ '%' := fun e => h (by rw [e]; exact List.mem_cons_self _ _)
    have hr : '%' ∉ rest := fun e => h (List.mem_cons_of_mem _ e)
    have ih := printf_rest_plain rest hr
    rw [printf_rest]
    · rw [ih]
    · intro rest1 e
      exact absurd e hc

theorem asprintf_single (post u : List Char) (hpost : '%' ∉ post) :
    ∀ (pre : List Char), '%' ∉ pre →
      asprintf_s (pre ++ '%' :: 's' :: post) u = pre ++ u ++ post
        ∧ strstr_pct_s (pre ++ '%' :: 's' :: post) = true
        ∧ replace_placeholder (pre ++ '%' :: 's' :: post) u = pre ++ u ++ post
  | [], _ => by
    refine ⟨?_, ?_, ?_⟩
    · simp [asprintf_s, printf_rest_plain post hpost]
    · simp [strstr_pct_s]
    · simp [replace_placeholder]
  | c :: rest, h => by
    have hc : c ≠ '%' := fun e => h (by rw [e]; exact List.mem_cons_self _ _)
    have hr : '%' ∉ rest := fun e => h (List.mem_cons_of_mem _ e)
    obtain ⟨ih1, ih2, ih3⟩ := asprintf_single post u hpost rest hr
    refine ⟨?_, ?_, ?_⟩
    · rw [List.cons_append, asprintf_s]
      · rw [ih1]; simp
      · intro rest1 e
        exact absurd e hc
      · intro rest1 e
        exact absurd e hc
    · rw [List.cons_append, strstr_pct_s]
      · exact ih2
      · intro rest1 e
        exact absurd e hc
    · rw [List.cons_append, replace_placeholder]
      · rw [ih3]; simp
      · intro rest1 e
        exact absurd e hc

theorem call_rule_urn_none (cb : app_t → Option ret_t × app_t) (s : app_t)
    (h : ∀ a : app_t, (cb a).2.urn = a.urn) : (result_of ⟨"", cb⟩ s).urn = none := by
  unfold result_of call_rule
  rw [h]

theorem tests_message (t : test_t) (ht : t ∈ tests) (s : app_t) (ret : ret_t)
    (h : (result_of t s).ret = some ret) :
    message_text ret (result_of t s).urn = rendered_message ret.msg (result_of t s).urn := by
  have hplain : (result_of t s).urn = none →
      message_text ret (result_of t s).urn = rendered_message ret.msg (result_of t s).urn := by
    intro hn
    rw [hn]
    rfl
  simp only [tests, List.mem_cons, List.mem_singleton, List.not_mem_nil, or_false] at ht
  rcases ht with e | e | e | e | e | e | e | e | e <;> subst e
  · revert h
    unfold result_of call_rule
    simp only []
    rw [test_class_eq]
    simp only []
    cases s.world.port_classes with
    | none => intro h; cases h
    | some valid =>
      cases hf : first_invalid valid (s.port.classes.getD []) with
      | none => simp only [hf]; intro h; cases h
      | some c =>
        simp only [hf]
        intro h
        cases h
        rfl
  · revert h
    unfold result_of call_rule
    simp only []
    rw [test_properties_eq]
    simp only []
    cases s.world.port_properties with
    | none => intro h; cases h
    | some valid =>
      cases hf : first_invalid valid (s.port.properties.getD []) with
      | none => simp only [hf]; intro h; cases h
      | some c =>
        simp only [hf]
        intro h
        cases h
        rfl
  · exact hplain (call_rule_urn_none _ s (fun a => by rw [test_default_footprint]))
  · exact hplain (call_rule_urn_none _ s (fun a => by rw [test_minimum_footprint]))
  · exact hplain (call_rule_urn_none _ s (fun a => by rw [test_maximum_footprint]))
  · exact hplain (call_rule_urn_none _ s (fun a => by rw [test_range_unchanged]))
  · exact hplain (call_rule_urn_none _ s (fun a => by rw [test_event_port_unchanged]))
  · exact hplain (call_rule_urn_none _ s (fun a => by rw [test_comment_unchanged]))
  · exact hplain (call_rule_urn_none _ s (fun a => by rw [test_group_unchanged]))

theorem tests_id_length (t : test_t) (ht : t ∈ tests) : t.id.length = 16 := by
  simp only [tests, List.mem_cons, List.mem_singleton, List.not_mem_nil, or_false] at ht
  rcases ht with e | e | e | e | e | e | e | e | e <;> subst e <;> decide

/-- C11: the line of a visible Finding is
`    [<style>SEVERITY<reset>]  <identifier>=> <message> <<reference>>`, with the
16 character identifier of its rule and its reference URI unchanged, and its
message is the template with the placeholder replaced by the substitution when
the rule left one, the template itself when it left none.  The replacement puts
the substitution in the place of the `%s` of a template that has one
placeholder and no other percent sign. -/
theorem C11_message (atty : Bool) (colors : Bool → ansi_color → String) (app : app_t) :
    (∀ (k : Nat) (t : test_t) (res : res_t) (ret : ret_t),
        tests.get? k = some t → (test_port atty colors app).rets.get? k = some res →
        res.ret = some ret → app.show_.has ret.lint = true →
        finding_line (colors atty) t.id ret res.urn ∈ (test_port atty colors app).out
          ∧ finding_line (colors atty) t.id ret res.urn =
            "    [" ++ colors atty (lint_color ret.lint) ++ lint_label ret.lint
              ++ colors atty ANSI_COLOR_RESET ++ "]  " ++ t.id ++ "=> "
              ++ rendered_message ret.msg res.urn ++ " <" ++ ret.url ++ ">\n"
          ∧ t.id.length = 16)
      ∧ (∀ template : String, rendered_message template none = template)
      ∧ (∀ (pre post : List Char) (subst : String), '%' ∉ pre → '%' ∉ post →
          rendered_message (String.mk (pre ++ '%' :: 's' :: post)) (some subst)
            = String.mk (pre ++ subst.data ++ post))
      ∧ (∀ (ret : ret_t) (pre post : List Char) (subst : String),
          ret.msg = String.mk (pre ++ '%' :: 's' :: post) → '%' ∉ pre → '%' ∉ post →
          message_text ret (some subst) = String.mk (pre ++ subst.data ++ post))
      ∧ (∀ ret : ret_t, message_text ret none = ret.msg)
      ∧ (∀ c : String,
          rendered_message (ret_class .CLASS_NOT_VALID).msg (some c)
              = "lv2:Port class <" ++ c ++ "> not valid"
            ∧ rendered_message (ret_properties .PROPERTIES_NOT_VALID).msg (some c)
              = "lv2:portProperty <" ++ c ++ "> not valid") := by
  refine ⟨?_, fun _ => rfl, ?_, ?_, fun _ => rfl, ?_⟩
  · intro k t res ret ht hres hret hshow
    have htm : t ∈ tests := List.mem_iff_get?.mpr ⟨k, ht⟩
    have hres1 := test_port_rets_get atty colors app k
    rw [hres, ht] at hres1
    have hres2 : res = result_of t (state_after (tests.take k) app) := by
      simpa using hres1
    have hmsg : message_text ret res.urn = rendered_message ret.msg res.urn := by
      rw [hres2]
      exact tests_message t htm _ ret (by rw [← hres2]; exact hret)
    refine ⟨?_, ?_, tests_id_length t htm⟩
    · have hvis : ∃ f ∈ findings (test_port atty colors app).rets,
          app.show_.has f.lint = true := by
        refine ⟨ret, ?_, hshow⟩
        unfold findings
        rw [List.mem_filterMap]
        exact ⟨res, List.mem_iff_get?.mpr ⟨k, hres⟩, hret⟩
      have hany := (any_res_in_mask app.show_ (test_port atty colors app).rets).mpr hvis
      rw [(test_port_spec atty colors app).2.2.2, if_pos hany]
      apply List.mem_cons_of_mem
      unfold visible_lines
      rw [List.mem_map]
      refine ⟨(t, res), ?_, by simp [entry_line, hret]⟩
      rw [List.mem_filter]
      refine ⟨?_, by rw [res_in_mask_some _ _ ret hret]; exact hshow⟩
      rw [List.mem_iff_getElem?]
      refine ⟨k, ?_⟩
      rw [List.getElem?_zip_eq_some, ← List.get?_eq_getElem?, ← List.get?_eq_getElem?]
      exact ⟨ht, hres⟩
    · unfold finding_line
      rw [hmsg]
  · intro pre post subst hpre hpost
    unfold rendered_message
    simp only []
    rw [(asprintf_single post subst.data hpost pre hpre).2.2]
  · intro ret pre post subst hmsg hpre hpost
    obtain ⟨h1, h2, _⟩ := asprintf_single post subst.data hpost pre hpre
    unfold message_text
    simp only [hmsg, h1, h2, if_true, Option.getD_some]
  · intro c
    constructor
    · apply String.ext
      simp [rendered_message, ret_class, replace_placeholder]
    · apply String.ext
      simp [rendered_message, ret_properties, replace_placeholder]

/-- C11, witness: for valid classes `{A, B}` and asserted classes `A, C`, the
Class rule leaves the substitution `C` and its line reads
`lv2:Port class <C> not valid`. -/
theorem C11_witness :
    (test_port false no_colors (ex_app_classes (some ["A", "B"]) (some ["A", "C"]))).rets.get? 0
        = some ⟨some (ret_class .CLASS_NOT_VALID), some "C"⟩
      ∧ "    [FAIL]  Class           => lv2:Port class <C> not valid <http://lv2plug.in/ns/lv2core#Port>\n"
        ∈ (test_port false no_colors (ex_app_classes (some ["A", "B"]) (some ["A", "C"]))).out :=
  ⟨by decide,
    ((C11_message false no_colors (ex_app_classes (some ["A", "B"]) (some ["A", "C"]))).1 0
      ⟨"Class           ", _test_class⟩ ⟨some (ret_class .CLASS_NOT_VALID), some "C"⟩
      (ret_class .CLASS_NOT_VALID) rfl (by decide) rfl rfl).1⟩

/-! ## C19: toggled ports -/

end Lv2lint
